import Mathlib

/-!
Shallow embedding of the gemini-playground request gateway.

The definitions below are translated from the TypeScript sources:
  * the OpenAI-compatible translator utilities (src/unnamed/part_002),
  * the streaming transformer (src/unnamed/part_001, class
    GeminiToOpenAIStreamTransformer),
  * the native config builder (src/src/api/native_gemini/utils.ts),
  * the credential pool manager (src/src/kv_manager.ts),
  * the forwarder (src/src/forwarder/handler.ts, src/src/forwarder/utils.ts).

Modelling conventions, used consistently:
  * JavaScript `undefined`/absent fields are `Option.none`; the pattern
    `if (x !== undefined) cfg.f = x` on a fresh object is `f := x`.
  * JavaScript falsiness of strings is `s = ""`; falsiness of optional
    objects is `Option.isNone`; arrays are always truthy.
  * `JSON.parse` of a function-call argument string is external to the
    program, so an argument string is modelled by whether parsing succeeds
    (`ArgParseResult`), carrying the parsed value abstractly.
  * `fetch` of an image URL is external; the image-part translator takes it
    as an oracle `String → Option GeminiPart` (`none` models a throw, which
    the source catches and degrades to a placeholder text part).
  * Randomly generated ids (`generateOpenAIId`) and wall-clock timestamps
    (`Date.now`) are environmental and are omitted from the emitted payloads;
    no claim depends on them.
  * Numeric config values (temperature and friends) are only copied, never
    computed with, so they are abstracted to `Int`.
-/

/-- Prefix test on character lists (kernel-computable stand-in for the
JavaScript string methods, which operate on sequences of code units). -/
def charListPre : List Char → List Char → Bool
  | [], _ => true
  | _ :: _, [] => false
  | a :: as, b :: bs => if a = b then charListPre as bs else false

/-- JavaScript `s.startsWith(t)`. -/
def jsStartsWith (s t : String) : Bool := charListPre t.data s.data

/-- JavaScript `s.endsWith(t)`. -/
def jsEndsWith (s t : String) : Bool := charListPre t.data.reverse s.data.reverse

/-- JavaScript `s.substring(n)` for ASCII strings. -/
def jsDropChars (s : String) (n : Nat) : String := String.mk (s.data.drop n)

/-- Whitespace recognizer for `trim`. -/
def jsIsSpace (c : Char) : Bool := c = ' ' ∨ c = '\t' ∨ c = '\n' ∨ c = '\r'

/-- JavaScript `s.trim()`. -/
def jsTrim (s : String) : String :=
  String.mk (((s.data.dropWhile jsIsSpace).reverse.dropWhile jsIsSpace).reverse)

/-- ASCII lower-casing of one character. -/
def charToLower (c : Char) : Char :=
  if 65 ≤ c.toNat ∧ c.toNat ≤ 90 then Char.ofNat (c.toNat + 32) else c

/-- ASCII upper-casing of one character. -/
def charToUpper (c : Char) : Char :=
  if 97 ≤ c.toNat ∧ c.toNat ≤ 122 then Char.ofNat (c.toNat - 32) else c

/-- JavaScript `s.toLowerCase()` (ASCII). -/
def jsToLower (s : String) : String := String.mk (s.data.map charToLower)

/-- JavaScript `s.toUpperCase()` (ASCII). -/
def jsToUpper (s : String) : String := String.mk (s.data.map charToUpper)

/-- Substring occurrence test on character lists. -/
def charListHas (l sub : List Char) : Bool :=
  match l with
  | [] => charListPre sub []
  | _ :: rest => charListPre sub l || charListHas rest sub

/-- JavaScript `s.includes(sub)`. -/
def jsIncludes (s sub : String) : Bool := charListHas s.data sub.data

/-- JavaScript `s.split(sep)[0]`: the characters before the first
separator. -/
def jsFirstSegment (s : String) (sep : Char) : String :=
  String.mk (s.data.takeWhile fun c => c ≠ sep)

/-- Opaque stand-in for a parsed JSON value (the result of a successful
`JSON.parse` on a function-call argument string). -/
inductive JsonArgs where
  | val (tag : String)
deriving DecidableEq

/-- Result of `JSON.parse` on an OpenAI tool-call `arguments` string:
either it yields a value or it throws. -/
inductive ArgParseResult where
  | parsed (v : JsonArgs)
  | unparseable
deriving DecidableEq

/-- Gemini inlineData part payload. -/
structure InlineData where
  mimeType : String
  data : String
deriving DecidableEq

/-- Gemini functionCall part payload. -/
structure FunctionCallPart where
  name : String
  args : JsonArgs
deriving DecidableEq

/-- Content item of an OpenAI message with array content. -/
inductive OAIMsgItem where
  | text (s : String)
  | imageUrl (url : String)
  | other
deriving DecidableEq

/-- The `content` field of an OpenAI chat message: absent, a string, or an
array of items. -/
inductive OAIMsgContent where
  | absent
  | str (s : String)
  | arr (items : List OAIMsgItem)
deriving DecidableEq

/-- JavaScript truthiness of an OpenAI message content value: absent and the
empty string are falsy, arrays are truthy. -/
def oaiMsgContentTruthy : OAIMsgContent → Bool
  | .absent => false
  | .str s => s ≠ ""
  | .arr _ => true

/-- Gemini functionResponse part payload; the source stores the OpenAI
message content under `response.content`. -/
structure FunctionResponsePart where
  name : String
  responseContent : OAIMsgContent
deriving DecidableEq

/-- A Gemini Part: a plain object with optional text, inlineData,
functionCall and functionResponse properties. -/
structure GeminiPart where
  text : Option String := none
  inlineData : Option InlineData := none
  functionCall : Option FunctionCallPart := none
  functionResponse : Option FunctionResponsePart := none
deriving DecidableEq

/-- A Gemini Content as built by the translators: role plus parts. -/
structure Content where
  role : String
  parts : List GeminiPart
deriving DecidableEq

/-- The content object of a streamed or returned Gemini candidate, whose
`parts` property may be absent. -/
structure CandidateContent where
  parts : Option (List GeminiPart) := none
deriving DecidableEq

/-- A Gemini candidate: optional content and optional finishReason string. -/
structure GeminiCandidate where
  content : Option CandidateContent := none
  finishReason : Option String := none
deriving DecidableEq

/-- Gemini usage metadata, with the optional token counts read by
`transformGeminiUsageToOpenAI`. -/
structure UsageMetadata where
  promptTokenCount : Option Nat := none
  responseTokenCount : Option Nat := none
  thoughtsTokenCount : Option Nat := none
  totalTokenCount : Option Nat := none
deriving DecidableEq

/-- OpenAI usage details object holding reasoning tokens. -/
structure OutputTokensDetails where
  reasoning_tokens : Nat
deriving DecidableEq

/-- OpenAI usage object produced by `transformGeminiUsageToOpenAI`. -/
structure OpenAIUsage where
  prompt_tokens : Nat
  completion_tokens : Nat
  total_tokens : Nat
  output_tokens_details : Option OutputTokensDetails := none
deriving DecidableEq

/-- One safety setting entry. -/
structure SafetySetting where
  category : String
  threshold : String
deriving DecidableEq

/-- The fixed all-categories-OFF safety policy from
src/src/api/openai_compatible/types.ts (`defaultSafetySettings`), identical
to `forcedSafetySettingsBlockNone` in the native route file. -/
def defaultSafetySettings : List SafetySetting :=
  [ { category := "HARM_CATEGORY_HATE_SPEECH", threshold := "OFF" },
    { category := "HARM_CATEGORY_SEXUALLY_EXPLICIT", threshold := "OFF" },
    { category := "HARM_CATEGORY_DANGEROUS_CONTENT", threshold := "OFF" },
    { category := "HARM_CATEGORY_HARASSMENT", threshold := "OFF" },
    { category := "HARM_CATEGORY_CIVIC_INTEGRITY", threshold := "OFF" } ]

/-- thinkingConfig object; `thinkingBudget` may be absent when the object
comes from a caller-supplied config spread. -/
structure ThinkingConfig where
  thinkingBudget : Option Int := none
deriving DecidableEq

/-- Opaque passthrough value for fields the gateway copies without
inspecting (tools, toolConfig, responseSchema). -/
abbrev JsOpaque := String

/-- The SdkConfigOptions object assembled by the translators. Fields are
optional; the post-assembly deletion of undefined fields in the source is
the `Option` representation itself. -/
structure SdkConfigOptions where
  temperature : Option Int := none
  topP : Option Int := none
  topK : Option Int := none
  candidateCount : Option Int := none
  maxOutputTokens : Option Int := none
  stopSequences : Option (List String) := none
  responseMimeType : Option String := none
  responseSchema : Option JsOpaque := none
  responseModalities : Option (List String) := none
  thinkingConfig : Option ThinkingConfig := none
  systemInstruction : Option Content := none
  safetySettings : Option (List SafetySetting) := none
  tools : Option JsOpaque := none
  toolConfig : Option JsOpaque := none
deriving DecidableEq

/-- The `stop` field of an OpenAI request: absent, a string, or an array
whose items may or may not be strings. -/
inductive StopItem where
  | str (s : String)
  | nonstr
deriving DecidableEq

/-- Shape of the `stop` field. -/
inductive StopField where
  | absent
  | str (s : String)
  | arr (items : List StopItem)
deriving DecidableEq

/-- OpenAI response_format object. -/
structure ResponseFormat where
  type : String
deriving DecidableEq

/-- OpenAI reasoning object. -/
structure OpenAIReasoning where
  effort : Option String := none
deriving DecidableEq

/-- OpenAI stream_options object. -/
structure StreamOptionsRec where
  include_usage : Option Bool := none
deriving DecidableEq

/-- OpenAI function spec inside a tool call of an assistant message; the
`arguments` string is modelled by its parse outcome. -/
structure OpenAIFunctionSpec where
  name : String
  arguments : ArgParseResult
deriving DecidableEq

/-- OpenAI tool call entry on an assistant message. -/
structure OpenAIToolCallIn where
  type : String
  function : Option OpenAIFunctionSpec
deriving DecidableEq

/-- OpenAI chat message as consumed by
`transformOpenAIMessagesToGeminiContents`. -/
structure OpenAIMessage where
  role : String
  content : OAIMsgContent := .absent
  tool_calls : Option (List OpenAIToolCallIn) := none
  tool_call_id : Option String := none
  name : Option String := none
deriving DecidableEq

/-- OpenAI chat completion request, restricted to the fields the config
translator reads. The source also walks the remaining request keys through
`fieldsMap`, but every `fieldsMap` key is in that loop's skip list, so the
loop copies nothing. -/
structure OpenAIChatCompletionRequest where
  model : String := ""
  messages : List OpenAIMessage := []
  temperature : Option Int := none
  top_p : Option Int := none
  top_k : Option Int := none
  n : Option Int := none
  max_tokens : Option Int := none
  stop : StopField := .absent
  response_format : Option ResponseFormat := none
  reasoning : Option OpenAIReasoning := none
  stream : Bool := false
  stream_options : Option StreamOptionsRec := none
deriving DecidableEq

/-- Whether a stop array contains only strings
(`req.stop.every(s => typeof s === "string")`). -/
def stopItemsAllStrings (items : List StopItem) : Bool :=
  items.all fun i => match i with | .str _ => true | .nonstr => false

/-- Extracts the strings from a stop array known to contain only strings. -/
def stopItemsStrings (items : List StopItem) : List String :=
  items.filterMap fun i => match i with | .str s => some s | .nonstr => none

/-- Translation of `transformOpenAIConfigToSdkConfigOptions` from
src/unnamed/part_002. Direct field mappings, stop handling, the
response_format rule, the reasoning.effort ladder, and the unconditional
safety override. -/
def transformOpenAIConfigToSdkConfigOptions
    (req : OpenAIChatCompletionRequest) : SdkConfigOptions :=
  let stopSeqs : Option (List String) :=
    match req.stop with
    | .absent => none
    | .str s => if s ≠ "" then some [s] else none
    | .arr items => if stopItemsAllStrings items then some (stopItemsStrings items) else none
  let thinking : Option ThinkingConfig :=
    match req.reasoning with
    | some r =>
      match r.effort with
      | some e =>
        if e ≠ "" then
          if jsToLower e = "low" then some { thinkingBudget := some 1024 }
          else if jsToLower e = "medium" then some { thinkingBudget := some 4096 }
          else if jsToLower e = "high" then some { thinkingBudget := some 16384 }
          else none
        else none
      | none => none
    | none => none
  let mime : Option String :=
    match req.response_format with
    | some rf => if rf.type = "json_object" then some "application/json" else none
    | none => none
  { temperature := req.temperature
    topP := req.top_p
    topK := req.top_k
    candidateCount := req.n
    maxOutputTokens := req.max_tokens
    stopSequences := stopSeqs
    responseMimeType := mime
    thinkingConfig := thinking
    safetySettings := some defaultSafetySettings }

/-- Caller-supplied generation config object as it may appear under
`body.config` or `body.generationConfig` of a native request. -/
structure NativeGenConfig where
  temperature : Option Int := none
  maxOutputTokens : Option Int := none
  topP : Option Int := none
  topK : Option Int := none
  candidateCount : Option Int := none
  stopSequences : Option (List String) := none
  responseMimeType : Option String := none
  responseSchema : Option JsOpaque := none
  responseModalities : Option (List String) := none
  thinkingConfig : Option ThinkingConfig := none
  safetySettings : Option (List SafetySetting) := none
  systemInstruction : Option Content := none
  tools : Option JsOpaque := none
  toolConfig : Option JsOpaque := none
deriving DecidableEq

/-- Native request body, restricted to the fields `buildSdkConfigOptions`
reads. -/
structure NativeRequestBody where
  config : Option NativeGenConfig := none
  generationConfig : Option NativeGenConfig := none
  systemInstruction : Option Content := none
  system_instruction : Option Content := none
  tools : Option JsOpaque := none
  toolConfig : Option JsOpaque := none
  thinkingConfig : Option ThinkingConfig := none
  temperature : Option Int := none
  maxOutputTokens : Option Int := none
  topP : Option Int := none
  topK : Option Int := none
  candidateCount : Option Int := none
  stopSequences : Option (List String) := none
  responseMimeType : Option String := none
  responseSchema : Option JsOpaque := none
  responseModalities : Option (List String) := none
deriving DecidableEq

/-- Nullish coalescing `a ?? b` on optional values. -/
def nullish (a b : Option α) : Option α :=
  match a with
  | some v => some v
  | none => b

/-- Translation of `buildSdkConfigOptions` from
src/src/api/native_gemini/utils.ts. The object literal spreads
`body.config` then `body.generationConfig` and then lists explicit
properties, which in JavaScript overwrite the spread values (including
overwriting with `undefined`, subsequently deleted). Only `thinkingConfig`
is absent from the literal, so only it survives from the spread; it is then
conditionally replaced by the explicit thinkingBudget handling. -/
def buildSdkConfigOptions (nativeBody : NativeRequestBody) : SdkConfigOptions :=
  let cfg := nativeBody.config.getD {}
  let gen := nativeBody.generationConfig.getD {}
  let spreadThinking := nullish gen.thinkingConfig cfg.thinkingConfig
  let tc := nullish nativeBody.thinkingConfig (nullish cfg.thinkingConfig gen.thinkingConfig)
  let finalThinking : Option ThinkingConfig :=
    match tc with
    | some t =>
      match t.thinkingBudget with
      | some b => some { thinkingBudget := some b }
      | none => spreadThinking
    | none => spreadThinking
  { systemInstruction := nullish nativeBody.systemInstruction nativeBody.system_instruction
    safetySettings := some defaultSafetySettings
    tools := nativeBody.tools
    toolConfig := nativeBody.toolConfig
    temperature := nullish nativeBody.temperature (nullish gen.temperature cfg.temperature)
    maxOutputTokens := nullish nativeBody.maxOutputTokens (nullish gen.maxOutputTokens cfg.maxOutputTokens)
    topP := nullish nativeBody.topP (nullish gen.topP cfg.topP)
    topK := nullish nativeBody.topK (nullish gen.topK cfg.topK)
    candidateCount := nullish nativeBody.candidateCount (nullish gen.candidateCount cfg.candidateCount)
    stopSequences := nullish nativeBody.stopSequences (nullish gen.stopSequences cfg.stopSequences)
    responseMimeType := nullish nativeBody.responseMimeType (nullish cfg.responseMimeType gen.responseMimeType)
    responseSchema := nullish nativeBody.responseSchema (nullish cfg.responseSchema gen.responseSchema)
    responseModalities := nullish nativeBody.responseModalities (nullish cfg.responseModalities gen.responseModalities)
    thinkingConfig := finalThinking }

/-- Parts contributed by one message body (tool role, string content, or
array content), before tool-call parts are appended. `fetchImage` is the
external image fetch and data-URI parse; `none` models a throw, degraded to
a placeholder text part by the catch in the source. -/
def buildContentParts (fetchImage : String → Option GeminiPart)
    (msg : OpenAIMessage) : List GeminiPart :=
  if msg.role = "tool" then
    match msg.tool_call_id with
    | some tcid =>
      if tcid ≠ "" ∧ oaiMsgContentTruthy msg.content then
        [ { functionResponse := some
              { name := match msg.name with
                  | some n => if n ≠ "" then n else tcid
                  | none => tcid
                responseContent := msg.content } } ]
      else []
    | none => []
  else
    match msg.content with
    | .str s => [ { text := some s } ]
    | .arr items =>
      items.foldl (fun acc item =>
        match item with
        | .text s => acc ++ [ { text := some s } ]
        | .imageUrl url =>
          if url ≠ "" then
            match fetchImage url with
            | some p => acc ++ [p]
            | none => acc ++ [ { text := some ("[Image URL could not be processed: " ++ url ++ "]") } ]
          else acc
        | .other => acc) []
    | .absent => []

/-- Translation of one assistant tool call to a functionCall part;
`none` when `JSON.parse(arguments)` throws (caught and skipped). -/
def toolCallToPart (toolCall : OpenAIToolCallIn) : Option GeminiPart :=
  if toolCall.type = "function" then
    match toolCall.function with
    | some f =>
      match f.arguments with
      | .parsed v => some { functionCall := some { name := f.name, args := v } }
      | .unparseable => none
    | none => none
  else none

/-- Gemini role for a non-system OpenAI role. -/
def geminiRoleFor (role : String) : String :=
  if role = "assistant" then "model" else if role = "tool" then "function" else "user"

/-- Accumulated output of the message translator. -/
structure TranslatedMessages where
  contents : List Content
  systemInstruction : Option Content := none
deriving DecidableEq

/-- Parts contributed by one message including appended assistant
tool-call parts. -/
def messageParts (fetchImage : String → Option GeminiPart)
    (msg : OpenAIMessage) : List GeminiPart :=
  let base := buildContentParts fetchImage msg
  if msg.role = "assistant" then
    match msg.tool_calls with
    | some tcs => base ++ tcs.filterMap toolCallToPart
    | none => base
  else base

/-- Translation of `transformOpenAIMessagesToGeminiContents` from
src/unnamed/part_002: fold over the messages, routing system parts to
`systemInstruction`, emitting Contents for non-empty part lists, and
emitting a single empty-text Content for an assistant message with neither
content nor tool_calls. -/
def transformOpenAIMessagesToGeminiContents
    (fetchImage : String → Option GeminiPart)
    (messages : List OpenAIMessage) : TranslatedMessages :=
  messages.foldl (fun acc msg =>
    let parts := messageParts fetchImage msg
    if parts.length > 0 then
      if msg.role = "system" then
        { acc with systemInstruction := some { role := "system", parts := parts } }
      else
        { acc with contents := acc.contents ++ [ { role := geminiRoleFor msg.role, parts := parts } ] }
    else if msg.role = "assistant" ∧ ¬ oaiMsgContentTruthy msg.content ∧ msg.tool_calls = none then
      { acc with contents := acc.contents ++ [ { role := "model", parts := [ { text := some "" } ] } ] }
    else acc)
    { contents := [], systemInstruction := none }

/-- Whether any part of the candidate carries a functionCall
(`cand?.content?.parts?.some(p => p.functionCall)`). -/
def candidateHasFunctionCall (cand : Option GeminiCandidate) : Bool :=
  match cand with
  | some c =>
    match c.content with
    | some ct =>
      match ct.parts with
      | some ps => ps.any fun p => p.functionCall.isSome
      | none => false
    | none => false
  | none => false

/-- The finish-reason lookup object from src/unnamed/part_002. -/
def finishReasonMap (s : String) : Option String :=
  if s = "STOP" then some "stop"
  else if s = "MAX_TOKENS" then some "length"
  else if s = "SAFETY" then some "content_filter"
  else if s = "RECITATION" then some "content_filter"
  else if s = "OTHER" then some "stop"
  else if s = "UNKNOWN" then some "stop"
  else if s = "MODEL_UNSPECIFIED_FINISH_REASON" then some "stop"
  else if s = "FINISH_REASON_UNSPECIFIED" then some "stop"
  else if s = "FUNCTION_CALL" then some "tool_calls"
  else none

/-- Translation of `geminiFinishReasonToOpenAI` from src/unnamed/part_002:
absent or empty reasons map to null; a functionCall part forces
"tool_calls"; otherwise the uppercase reason is looked up in the map, with
lowercase passthrough for unknown reasons. -/
def geminiFinishReasonToOpenAI (reason : Option String)
    (geminiCandidate : Option GeminiCandidate) : Option String :=
  match reason with
  | none => none
  | some r =>
    if r = "" then none
    else if candidateHasFunctionCall geminiCandidate then some "tool_calls"
    else
      match finishReasonMap (jsToUpper r) with
      | some m => some m
      | none => some (jsToLower r)

/-- OpenAI tool call in a translated choice. The randomly generated
`call_fcid-...` id is environmental and omitted. -/
structure OAIToolCall where
  function : FunctionCallPart
deriving DecidableEq

/-- The message/delta object of a translated choice. The source uses the
key `message` for non-streaming and `delta` for streaming; the object shape
is identical, so one structure models both. -/
structure OAIDelta where
  role : Option String := none
  content : Option String := none
  tool_calls : Option (List OAIToolCall) := none
deriving DecidableEq

/-- A translated OpenAI choice (`logprobs` is constantly null and
omitted). -/
structure OAIChoice where
  index : Nat
  delta : OAIDelta
  finish_reason : Option String
deriving DecidableEq

/-- Parts of a candidate, defaulting to the empty list. -/
def candidateParts (candidate : GeminiCandidate) : List GeminiPart :=
  match candidate.content with
  | some ct => ct.parts.getD []
  | none => []

/-- Translation of `transformGeminiCandidateToOpenAIChoice` from
src/unnamed/part_002: concatenate truthy text parts, collect functionCall
parts as tool calls, and map the finish reason. -/
def transformGeminiCandidateToOpenAIChoice (candidate : GeminiCandidate)
    (index : Nat) : OAIChoice :=
  let textContent := (candidateParts candidate).foldl (fun acc p =>
    match p.text with
    | some t => if t ≠ "" then acc ++ t else acc
    | none => acc) ""
  let functionCalls := (candidateParts candidate).filterMap fun p =>
    p.functionCall.map fun fc => ({ function := fc } : OAIToolCall)
  { index := index
    delta :=
      { role := some "assistant"
        content := if textContent ≠ "" then some textContent else none
        tool_calls := if functionCalls.isEmpty then none else some functionCalls }
    finish_reason := geminiFinishReasonToOpenAI candidate.finishReason (some candidate) }

/-- Translation of `transformGeminiUsageToOpenAI` from src/unnamed/part_002:
visible completion tokens are responseTokenCount minus thoughtsTokenCount,
clamped at zero, with reasoning tokens reported when thoughts are present. -/
def transformGeminiUsageToOpenAI (usageMetadata : Option UsageMetadata) : OpenAIUsage :=
  match usageMetadata with
  | none => { prompt_tokens := 0, completion_tokens := 0, total_tokens := 0 }
  | some u =>
    let promptTokens := u.promptTokenCount.getD 0
    let thoughtsTokens := u.thoughtsTokenCount.getD 0
    let visibleCompletionTokens : Int := (u.responseTokenCount.getD 0 : Int) - (thoughtsTokens : Int)
    let base : OpenAIUsage :=
      { prompt_tokens := promptTokens
        completion_tokens := if visibleCompletionTokens < 0 then 0 else visibleCompletionTokens.toNat
        total_tokens := u.totalTokenCount.getD 0 }
    if 0 < thoughtsTokens then
      { base with output_tokens_details := some { reasoning_tokens := thoughtsTokens } }
    else base

/-- Prompt feedback object of a native chunk. -/
structure PromptFeedback where
  blockReason : Option String := none
deriving DecidableEq

/-- A native streaming chunk (`GenerateContentResponse`): candidates
(absent modelled as empty), optional prompt feedback and optional usage
metadata. -/
structure GenerateContentResponse where
  candidates : List GeminiCandidate := []
  promptFeedback : Option PromptFeedback := none
  usageMetadata : Option UsageMetadata := none
deriving DecidableEq

/-- One emitted OpenAI stream chunk payload. The constant fields `object`
and the wall-clock `created` are omitted. -/
structure OAIStreamChunk where
  id : String
  model : String
  choices : List OAIChoice
  usage : Option OpenAIUsage := none
deriving DecidableEq

/-- One SSE frame written by the transformer: either a data frame carrying
a JSON chunk, or the terminal `data: [DONE]` frame. -/
inductive SseEvent where
  | data (chunk : OAIStreamChunk)
  | done
deriving DecidableEq

/-- JavaScript truthiness of an optional string. -/
def jsTruthyStrOpt : Option String → Bool
  | some s => s ≠ ""
  | none => false

/-- Constructor arguments of `GeminiToOpenAIStreamTransformer`. -/
structure TransformerParams where
  id : String
  model : String
  streamOptions : Option StreamOptionsRec := none
deriving DecidableEq

/-- Truthiness of `this.streamOptions?.include_usage`. -/
def includeUsageB (P : TransformerParams) : Bool :=
  match P.streamOptions with
  | some o => o.include_usage.getD false
  | none => false

/-- Mutable state of `GeminiToOpenAIStreamTransformer`. The two
number-keyed records are association lists in insertion order (candidate
indices are visited in ascending order, matching the ascending iteration
order of integer-keyed JavaScript objects). -/
structure TransformerState where
  isFirstContentChunkByChoiceIndex : List (Nat × Bool) := []
  finalUsageData : Option OpenAIUsage := none
  accumulatedFinishReasonByChoiceIndex : List (Nat × String) := []
deriving DecidableEq

/-- Record lookup (`undefined` is `none`). -/
def recGet (m : List (Nat × α)) (i : Nat) : Option α :=
  (m.find? fun p => p.1 = i).map Prod.snd

/-- Record assignment, preserving key order. -/
def recSet (m : List (Nat × α)) (i : Nat) (v : α) : List (Nat × α) :=
  if (m.find? fun p => p.1 = i).isSome then
    m.map fun p => if p.1 = i then (i, v) else p
  else m ++ [(i, v)]

/-- Whether the prelude role chunk should be sent
(`choice.delta.content || choice.delta.tool_calls`). -/
def deltaTruthyForPrelude (d : OAIDelta) : Bool :=
  jsTruthyStrOpt d.content || d.tool_calls.isSome

/-- Whether the per-candidate chunk is emitted
(`currentDelta.role || currentDelta.content || currentDelta.tool_calls`). -/
def deltaTruthyForEmit (d : OAIDelta) : Bool :=
  jsTruthyStrOpt d.role || jsTruthyStrOpt d.content || d.tool_calls.isSome

/-- Body of the per-candidate loop in
`GeminiToOpenAIStreamTransformer.transform` (src/unnamed/part_001): prelude
emission on first truthy delta, per-candidate chunk emission with usage
attachment on a finishing chunk, and finish-reason accumulation. -/
def transformCandidateStep (P : TransformerParams)
    (usageMeta : Option UsageMetadata)
    (acc : TransformerState × List SseEvent)
    (iCand : Nat × GeminiCandidate) : TransformerState × List SseEvent :=
  let st0 := acc.1
  let evs0 := acc.2
  let i := iCand.1
  let candidate := iCand.2
  let st1 :=
    if (recGet st0.isFirstContentChunkByChoiceIndex i).isNone then
      { st0 with isFirstContentChunkByChoiceIndex := recSet st0.isFirstContentChunkByChoiceIndex i true }
    else st0
  let choice := transformGeminiCandidateToOpenAIChoice candidate i
  let isFirst := (recGet st1.isFirstContentChunkByChoiceIndex i).getD false
  let preludeFires := isFirst ∧ deltaTruthyForPrelude choice.delta
  let st2 :=
    if preludeFires then
      { st1 with isFirstContentChunkByChoiceIndex := recSet st1.isFirstContentChunkByChoiceIndex i false }
    else st1
  let evs1 :=
    if preludeFires then
      evs0 ++ [SseEvent.data
        { id := P.id, model := P.model,
          choices := [ { index := i, delta := { role := some "assistant" },
                         finish_reason := none } ] }]
    else evs0
  let attachUsage :=
    jsTruthyStrOpt choice.finish_reason ∧ usageMeta.isSome ∧ includeUsageB P
  let st3 := if attachUsage then { st2 with finalUsageData := none } else st2
  let evs2 :=
    if deltaTruthyForEmit choice.delta then
      evs1 ++ [SseEvent.data
        { id := P.id, model := P.model,
          choices := [ { index := i, delta := choice.delta,
                         finish_reason := choice.finish_reason } ],
          usage := if attachUsage then some (transformGeminiUsageToOpenAI usageMeta) else none }]
    else evs1
  let st4 :=
    if jsTruthyStrOpt choice.finish_reason then
      { st3 with accumulatedFinishReasonByChoiceIndex := recSet st3.accumulatedFinishReasonByChoiceIndex i (choice.finish_reason.getD "") }
    else st3
  (st4, evs2)

/-- Translation of `GeminiToOpenAIStreamTransformer.transform`. Note the
post-loop guard storing usage for the flush step only when
`finalUsageData` is already non-null, which is exactly the guard
`this.finalUsageData !== null` written in the source. -/
def transformerTransform (P : TransformerParams)
    (geminiChunk : GenerateContentResponse)
    (st : TransformerState) : TransformerState × List SseEvent :=
  if geminiChunk.candidates.length > 0 then
    let stepped := geminiChunk.candidates.enum.foldl
      (transformCandidateStep P geminiChunk.usageMetadata) (st, [])
    let st1 := stepped.1
    let st2 :=
      if geminiChunk.usageMetadata.isSome ∧ st1.finalUsageData.isSome then
        { st1 with finalUsageData := some (transformGeminiUsageToOpenAI geminiChunk.usageMetadata) }
      else st1
    (st2, stepped.2)
  else
    match geminiChunk.promptFeedback with
    | some pf =>
      let finishReason := if jsTruthyStrOpt pf.blockReason then "content_filter" else "error"
      let errorChunk : OAIStreamChunk :=
        { id := P.id, model := P.model,
          choices := [ { index := 0, delta := {}, finish_reason := some finishReason } ] }
      ({ st with
          accumulatedFinishReasonByChoiceIndex := recSet st.accumulatedFinishReasonByChoiceIndex 0 finishReason,
          isFirstContentChunkByChoiceIndex := recSet st.isFirstContentChunkByChoiceIndex 0 false },
       [SseEvent.data errorChunk])
    | none => (st, [])

/-- Translation of `GeminiToOpenAIStreamTransformer.flush`: the pending
usage chunk (empty choices), the synthetic chunks for choices that closed
without content, and the terminal DONE frame. -/
def transformerFlush (P : TransformerParams) (st : TransformerState) : List SseEvent :=
  let usageEvs :=
    if includeUsageB P ∧ st.finalUsageData.isSome then
      [SseEvent.data { id := P.id, model := P.model, choices := [], usage := st.finalUsageData }]
    else []
  let lateEvs := st.isFirstContentChunkByChoiceIndex.foldl (fun acc p =>
    let index := p.1
    let isFirst := p.2
    match recGet st.accumulatedFinishReasonByChoiceIndex index with
    | some fr =>
      if isFirst ∧ fr ≠ "" then
        acc ++ [SseEvent.data
          { id := P.id, model := P.model,
            choices := [ { index := index, delta := { role := some "assistant" },
                           finish_reason := some fr } ],
            usage := if includeUsageB P ∧ st.finalUsageData.isSome then st.finalUsageData else none }]
      else acc
    | none => acc) []
  usageEvs ++ lateEvs ++ [SseEvent.done]

/-- A whole streamed response through the transformer: fold `transform`
over the native chunks, then `flush`. -/
def runStreamTransformer (P : TransformerParams)
    (chunks : List GenerateContentResponse) : List SseEvent :=
  let folded := chunks.foldl (fun acc c =>
    let stepped := transformerTransform P c acc.1
    (stepped.1, acc.2 ++ stepped.2)) (({} : TransformerState), ([] : List SseEvent))
  folded.2 ++ transformerFlush P folded.1

/-- The stream options actually passed to the transformer by
`handleOpenAIChatCompletion` (src/unnamed/part_001): the spread
`{...stream_options, include_usage: true}`, which forces usage inclusion. -/
def forcedStreamOptions (_streamOptionsIn : Option StreamOptionsRec) : StreamOptionsRec :=
  { include_usage := some true }

/-- The transformer parameters constructed by the alt-chat streaming path. -/
def chatStreamTransformerParams (id model : String)
    (req : OpenAIChatCompletionRequest) : TransformerParams :=
  { id := id, model := model, streamOptions := some (forcedStreamOptions req.stream_options) }

/-- Index normalization in `getNextAvailableApiKey`
(src/src/kv_manager.ts): a stored cursor outside `[0, len)` is reset to
zero before indexing. -/
def normalizeIdx (cursor : Int) (len : Nat) : Nat :=
  if cursor ≥ (len : Int) ∨ cursor < 0 then 0 else cursor.toNat

/-- The compare-and-set loop of `getNextAvailableApiKey`. `reads t` is the
poll-index value read from the store on attempt `t` (`none` models a null
entry, coalesced to 0), `succ t` is whether the atomic commit of attempt
`t` succeeds. On commit the key at the normalized index is returned;
after `remaining` failed attempts the non-atomic fallback read is used.
Indexing is modelled with the partial `getElem?` exactly as JavaScript
indexing can yield undefined. -/
def casGo (apiKeyValues : List String) (reads : Nat → Option Int)
    (fallbackRead : Option Int) (succ : Nat → Bool) :
    Nat → Nat → Option String
  | 0, _ =>
    let actualFallbackIndex := normalizeIdx (fallbackRead.getD 0) apiKeyValues.length
    apiKeyValues[actualFallbackIndex]?
  | remaining + 1, attempt =>
    let currentIndex := (reads attempt).getD 0
    let actualCurrentIndex := normalizeIdx currentIndex apiKeyValues.length
    if succ attempt then apiKeyValues[actualCurrentIndex]?
    else casGo apiKeyValues reads fallbackRead succ remaining (attempt + 1)

/-- Translation of `getNextAvailableApiKey` from src/src/kv_manager.ts
under arbitrary interference: the store reads and commit outcomes are
oracles. Returns null only for an empty pool; the cursor write itself is a
store effect not visible in the return value. -/
def getNextAvailableApiKeyModel (apiKeyValues : List String)
    (reads : Nat → Option Int) (fallbackRead : Option Int)
    (succ : Nat → Bool) : Option String :=
  if apiKeyValues.length = 0 then none
  else casGo apiKeyValues reads fallbackRead succ 5 1

/-- The KV-store snapshot and cursor cell used by one request.
`triggerKey` and `fallbackKey` are the persisted KV entries (written by
`setTriggerKey` / `setFallbackApiKey`); note that the reads
`getTriggerKey` / `getFallbackApiKey` below never actually reach them. -/
structure KvState where
  apiKeys : List (String × String) := []
  pollIndex : Int := 0
  triggerKey : Option String := none
  fallbackKey : Option String := none
  fallbackModels : List String := []
  failureThreshold : Nat := 5
deriving DecidableEq

/-- The pool credential values, `Object.values(apiKeyRecord)`. -/
def kvApiKeyValues (kv : KvState) : List String := kv.apiKeys.map fun p => p.2

/-- Sequential execution of `getNextAvailableApiKey`: the first
compare-and-set attempt reads the stored cursor and commits (there is no
interference within a single-threaded run). Returns the selected key and
the store with the advanced cursor. -/
def getNextAvailableApiKeySeq (kv : KvState) : Option String × KvState :=
  let apiKeyValues := kvApiKeyValues kv
  if apiKeyValues.length = 0 then (none, kv)
  else
    let actualCurrentIndex := normalizeIdx kv.pollIndex apiKeyValues.length
    let nextIndex := (actualCurrentIndex + 1) % apiKeyValues.length
    (apiKeyValues[actualCurrentIndex]?, { kv with pollIndex := (nextIndex : Int) })

/-- The store after `k` sequential allocations. -/
def allocIterate (kv : KvState) : Nat → KvState
  | 0 => kv
  | k + 1 => (getNextAvailableApiKeySeq (allocIterate kv k)).2

/-- The key selected by the `k`-th sequential allocation (0-based). -/
def allocSelection (kv : KvState) (k : Nat) : Option String :=
  (getNextAvailableApiKeySeq (allocIterate kv k)).1

/-- The keys selected by `K` sequential allocations, in order. -/
def allocSelections (kv : KvState) (K : Nat) : List (Option String) :=
  (List.range K).map (allocSelection kv)

/-- Translation of `getTriggerKey` from src/src/kv_manager.ts. `getCache`
returns the cached value on a hit and `null` on a miss — it never returns
`undefined` — yet the guard here is `if (cached !== undefined) return
cached;`, which both a hit and the null miss satisfy. The trigger-key
cache cell is never populated: the only `setCache` for it sits below this
unconditional return (dead code), and `setTriggerKey` / `clearTriggerKey`
only `clearCache` the cell. So every call takes the miss path of
`getCache` and returns `null`; the stored key in `kv` is never consulted.
(Contrast `getApiKeys`, guarded by the truthiness test `if (cached)`, and
`getFailureThreshold`, guarded by `if (cached !== null)`, which treat the
null miss correctly.) -/
def getTriggerKey (_kv : KvState) : Option String := none

/-- Translation of `getFallbackApiKey` from src/src/kv_manager.ts. It has
the same `if (cached !== undefined) return cached;` guard over the
null-returning `getCache` as `getTriggerKey`, and its cache cell is
likewise never populated (the `setCache` below the guard is unreachable;
`setFallbackApiKey` / `clearFallbackApiKey` only clear it), so every call
returns `null` and the stored fallback key is never consulted. -/
def getFallbackApiKey (_kv : KvState) : Option String := none

/-- Translation of `isValidTriggerKey` from src/src/kv_manager.ts:
`if (!providedKey) return false; const storedKey = await getTriggerKey();
return storedKey !== null && storedKey === providedKey.trim();`.
Since `getTriggerKey` constantly returns `null`, this is constantly
`false`. -/
def isValidTriggerKey (kv : KvState) (providedKey : String) : Bool :=
  if providedKey = "" then false
  else
    match getTriggerKey kv with
    | some storedKey => storedKey = jsTrim providedKey
    | none => false

/-- Translation of `shouldUseFallbackKey` from src/src/kv_manager.ts. -/
def shouldUseFallbackKey (kv : KvState) (modelName : String) : Bool :=
  if modelName = "" then false else kv.fallbackModels.contains modelName

/-- Path classification from src/src/forwarder/utils.ts. -/
inductive PathType where
  | native
  | openai
  | openai_image
  | unknown
deriving DecidableEq

/-- Translation of `classifyRequestPath` from src/src/forwarder/utils.ts. -/
def classifyRequestPath (pathname : String) : PathType :=
  if jsIncludes pathname ":generateContent" ∨
     jsIncludes pathname ":streamGenerateContent" ∨
     jsIncludes pathname ":embedContent" ∨
     jsIncludes pathname ":batchEmbedContents" ∨
     jsIncludes pathname ":countTokens" ∨
     jsIncludes pathname ":generateImageWithGemini" ∨
     jsIncludes pathname ":generateImageWithImagen" ∨
     jsStartsWith pathname "/v1beta/models" then .native
  else if jsEndsWith pathname "/images/generations" then .openai_image
  else if jsEndsWith pathname "/chat/completions" ∨
          jsEndsWith pathname "/embeddings" ∨
          jsEndsWith pathname "/models" then .openai
  else .unknown

/-- The incoming HTTP request, with the raw body text and the outcome of
`JSON.parse` on it given separately (the JSON parser is external; a `some`
body object models a successful parse of the non-empty body text). Only
the body field read by the forwarder itself is modelled. -/
structure RequestBodyJson where
  model : Option String := none
deriving DecidableEq

/-- Incoming request. -/
structure HttpRequest where
  method : String := "POST"
  pathname : String := ""
  authorizationHeader : Option String := none
  googApiKeyHeader : Option String := none
  bodyText : Option String := none
  bodyJson : Option RequestBodyJson := none
deriving DecidableEq

/-- The x-goog-api-key branch of `getTriggerKeyFromRequest`. -/
def googHeaderKey (request : HttpRequest) : Option String :=
  match request.googApiKeyHeader with
  | some g => if g ≠ "" then some (jsTrim g) else none
  | none => none

/-- Translation of `getTriggerKeyFromRequest` from
src/src/forwarder/utils.ts. -/
def getTriggerKeyFromRequest (request : HttpRequest) : Option String :=
  match request.authorizationHeader with
  | some a =>
    if a ≠ "" ∧ jsStartsWith (jsToLower a) "bearer " then some (jsTrim (jsDropChars a 7))
    else googHeaderKey request
  | none => googHeaderKey request

/-- HTTP response as far as the claims observe it. -/
structure HResponse where
  status : Nat
  body : String := ""
  headers : List (String × String) := []
deriving DecidableEq

/-- Fetch-API `response.ok`: status in the 2xx range. -/
def responseOk (r : HResponse) : Bool := 200 ≤ r.status ∧ r.status ≤ 299

/-- Translation of `ensureCorsHeaders` from src/src/forwarder/utils.ts. -/
def ensureCorsHeaders (response : HResponse) : HResponse :=
  let hasHeader := fun (name : String) => response.headers.any fun p => p.1 = name
  let h1 := if hasHeader "Access-Control-Allow-Origin" then response.headers
            else response.headers ++ [("Access-Control-Allow-Origin", "*")]
  let h2 := if hasHeader "Access-Control-Allow-Methods" then h1
            else h1 ++ [("Access-Control-Allow-Methods", "GET, POST, PUT, DELETE, OPTIONS, PATCH")]
  let h3 := if hasHeader "Access-Control-Allow-Headers" then h2
            else h2 ++ [("Access-Control-Allow-Headers", "Content-Type, Authorization, x-goog-api-key, x-goog-api-client")]
  { response with headers := h3 }

/-- Outcome of one downstream handler call: a response, or a thrown
error. -/
inductive CallOutcome where
  | resp (r : HResponse)
  | thrown (msg : String)
deriving DecidableEq

/-- Result of `executeApiCall`: the outcome together with whether the
upstream provider stack was actually invoked (as opposed to a locally
synthesized response). -/
structure ExecOutcome where
  outcome : CallOutcome
  upstreamUsed : Bool
deriving DecidableEq

/-- Truthiness of the pre-read body text being present and non-empty
(`preReadText !== null && preReadText !== ""`). -/
def preReadTextTruthy : Option String → Bool
  | some t => t ≠ ""
  | none => false

/-- Translation of the inner helper `executeApiCall` of
`handleForwardedRequest` (src/src/forwarder/handler.ts). The downstream
handlers themselves are the oracle, invoked with the chosen credential;
the locally synthesized 400/500 responses are modelled exactly. -/
def executeApiCall (pathType : PathType) (targetPath : String)
    (preParsedJson : Option RequestBodyJson) (preReadText : Option String)
    (oracle : String → CallOutcome) (apiKeyToUse : String) : ExecOutcome :=
  match pathType with
  | .native => { outcome := oracle apiKeyToUse, upstreamUsed := true }
  | .openai =>
    if preParsedJson.isNone ∧ preReadTextTruthy preReadText then
      { outcome := .resp { status := 400, body := "OpenAI compatible requests require a JSON body." },
        upstreamUsed := false }
    else if preParsedJson.isNone ∧
        (jsEndsWith targetPath "/chat/completions" ∨ jsEndsWith targetPath "/embeddings") then
      { outcome := .resp { status := 400, body := "Missing request body for OpenAI endpoint." },
        upstreamUsed := false }
    else if jsEndsWith targetPath "/chat/completions" then
      { outcome := oracle apiKeyToUse, upstreamUsed := true }
    else if jsEndsWith targetPath "/embeddings" then
      { outcome := oracle apiKeyToUse, upstreamUsed := true }
    else if jsEndsWith targetPath "/models" then
      { outcome := oracle apiKeyToUse, upstreamUsed := true }
    else
      { outcome := .resp { status := 500, body := "Internal server error for OpenAI path." },
        upstreamUsed := false }
  | .openai_image =>
    if preParsedJson.isNone ∧ preReadTextTruthy preReadText then
      { outcome := .resp { status := 400, body := "OpenAI compatible image requests require a JSON body." },
        upstreamUsed := false }
    else if preParsedJson.isNone ∧ jsEndsWith targetPath "/images/generations" then
      { outcome := .resp { status := 400, body := "Missing request body for OpenAI image generation." },
        upstreamUsed := false }
    else if jsEndsWith targetPath "/images/generations" then
      { outcome := oracle apiKeyToUse, upstreamUsed := true }
    else
      { outcome := .resp { status := 500, body := "Internal server error for OpenAI Image path." },
        upstreamUsed := false }
  | .unknown =>
    { outcome := .resp { status := 500, body := "Internal server error due to unhandled path type." },
      upstreamUsed := false }

/-- Observable result of one forwarded request: the response plus the
trace of credential use. `attempts` lists, in order, the credentials
passed to `executeApiCall`; `upstreamKeys` lists those for which the
upstream stack was actually invoked; `poolAllocCount` counts the calls to
`getNextAvailableApiKey`. -/
structure RunResult where
  response : HResponse
  attempts : List String := []
  upstreamKeys : List String := []
  poolAllocCount : Nat := 0
deriving DecidableEq

/-- State of the primary-pool retry loop in `handleForwardedRequest`. -/
structure PoolLoopState where
  kv : KvState
  distinctKeysAttemptedCount : Nat := 0
  attemptedKeys : List String := []
  lastErrorResponse : Option HResponse := none
  attempts : List String := []
  upstreamKeys : List String := []
  poolAllocCount : Nat := 0
deriving DecidableEq

/-- The 500 response packaged from a thrown handler error. -/
def thrownResponse (msg : String) : HResponse := { status := 500, body := msg }

/-- The response returned when the retry loop exits without a success:
the last recorded error response, else a synthesized 503. -/
def poolExitResponse (s : PoolLoopState) : HResponse :=
  s.lastErrorResponse.getD
    { status := 503,
      body := "Forwarder: All API key attempts from pool failed after trying " ++
        toString s.distinctKeysAttemptedCount ++ " key(s)." }

/-- Packs the final response together with the recorded trace. -/
def mkRunResult (r : HResponse) (s : PoolLoopState) : RunResult :=
  { response := r, attempts := s.attempts, upstreamKeys := s.upstreamKeys,
    poolAllocCount := s.poolAllocCount }

/-- Records one executeApiCall invocation in the trace. -/
def recordAttempt (s : PoolLoopState) (k : String) (upstreamUsed : Bool) : PoolLoopState :=
  { s with attempts := s.attempts ++ [k],
           upstreamKeys := if upstreamUsed then s.upstreamKeys ++ [k] else s.upstreamKeys }

/-- Translation of the primary-pool `while` loop of
`handleForwardedRequest` (src/src/forwarder/handler.ts, pool branch).
`fuel` bounds the number of loop iterations of this model; running out of
fuel returns exactly what the loop-exit path returns. -/
def poolLoop (execCall : String → ExecOutcome) (limit : Nat) :
    Nat → PoolLoopState → RunResult
  | 0, s => mkRunResult (ensureCorsHeaders (poolExitResponse s)) s
  | fuel + 1, s =>
    if s.distinctKeysAttemptedCount < limit then
      let alloc := getNextAvailableApiKeySeq s.kv
      let s1 := { s with kv := alloc.2, poolAllocCount := s.poolAllocCount + 1 }
      match alloc.1 with
      | none =>
        let finalError := s1.lastErrorResponse.getD
          { status := 503, body := "No available API keys from primary pool." }
        mkRunResult (ensureCorsHeaders finalError) s1
      | some apiKeyFromPool =>
        if s1.attemptedKeys.contains apiKeyFromPool then
          let totalApiKeysInPool := s1.kv.apiKeys.length
          if s1.attemptedKeys.length ≥ totalApiKeysInPool ∧ 0 < totalApiKeysInPool then
            mkRunResult (ensureCorsHeaders (poolExitResponse s1)) s1
          else poolLoop execCall limit fuel s1
        else
          let s2 := recordAttempt
            { s1 with attemptedKeys := s1.attemptedKeys ++ [apiKeyFromPool],
                      distinctKeysAttemptedCount := s1.distinctKeysAttemptedCount + 1 }
            apiKeyFromPool (execCall apiKeyFromPool).upstreamUsed
          match (execCall apiKeyFromPool).outcome with
          | .resp response =>
            if responseOk response then mkRunResult (ensureCorsHeaders response) s2
            else poolLoop execCall limit fuel { s2 with lastErrorResponse := some response }
          | .thrown msg =>
            poolLoop execCall limit fuel { s2 with lastErrorResponse := some (thrownResponse msg) }
    else mkRunResult (ensureCorsHeaders (poolExitResponse s)) s

/-- Initial pool-loop state for a request. -/
def initialPoolState (kv : KvState) : PoolLoopState := { kv := kv }

/-- Whether the fallback key should be used
(`modelNameFromRequest ? await shouldUseFallbackKey(...) : false`). -/
def useFallbackFor (kv : KvState) (modelNameFromRequest : Option String) : Bool :=
  match modelNameFromRequest with
  | some m => if m = "" then false else shouldUseFallbackKey kv m
  | none => false

/-- The fallback attempt followed by the primary-pool walk (pool branch of
`handleForwardedRequest` when a fallback key is configured for the model). -/
def fallbackThenPool (kv : KvState) (execCall : String → ExecOutcome)
    (fallbackApiKey : String) (fuel : Nat) : RunResult :=
  let ex := execCall fallbackApiKey
  let st1 := recordAttempt (initialPoolState kv) fallbackApiKey ex.upstreamUsed
  match ex.outcome with
  | .resp response =>
    if responseOk response then mkRunResult (ensureCorsHeaders response) st1
    else poolLoop execCall kv.failureThreshold fuel st1
  | .thrown _ => poolLoop execCall kv.failureThreshold fuel st1

/-- The whole pool-mode pipeline: optional fallback attempt, then the
primary-pool walk. The fallback key is read through `getFallbackApiKey`,
which constantly returns `null` (its `cached !== undefined` guard over
the null-returning `getCache`), so the `fallbackThenPool` branch is
unreachable; the whole function is itself unreachable from
`handleForwardedRequest` because `isValidTriggerKey` is constantly
`false`. -/
def poolModeRun (kv : KvState) (execCall : String → ExecOutcome)
    (modelNameFromRequest : Option String) (fuel : Nat) : RunResult :=
  if useFallbackFor kv modelNameFromRequest then
    match getFallbackApiKey kv with
    | some fallbackApiKey => fallbackThenPool kv execCall fallbackApiKey fuel
    | none => poolLoop execCall kv.failureThreshold fuel (initialPoolState kv)
  else poolLoop execCall kv.failureThreshold fuel (initialPoolState kv)

/-- The passthrough branch of `handleForwardedRequest`: one call with the
presented credential, the response (2xx or not) returned, thrown errors
wrapped as 500. -/
def passthroughRun (execCall : String → ExecOutcome) (actualApiKey : String) : RunResult :=
  let ex := execCall actualApiKey
  let st1 := recordAttempt (initialPoolState {}) actualApiKey ex.upstreamUsed
  match ex.outcome with
  | .resp response => mkRunResult (ensureCorsHeaders response) st1
  | .thrown msg => mkRunResult (ensureCorsHeaders (thrownResponse msg)) st1

/-- Target path after stripping the forward prefix ("/api"). -/
def stripForwardPath (pathname : String) : String :=
  if jsStartsWith pathname "/api" then jsDropChars pathname 4 else pathname

/-- The pre-read body text: the request body is read for non-GET,
non-OPTIONS, non-HEAD requests with a body. -/
def computePreReadText (request : HttpRequest) : Option String :=
  if request.bodyText.isSome ∧ request.method ≠ "GET" ∧
     request.method ≠ "OPTIONS" ∧ request.method ≠ "HEAD" then request.bodyText
  else none

/-- The pre-parsed JSON body: parsing is attempted only on a non-empty
pre-read text; `request.bodyJson` is the external parse outcome. -/
def computePreParsedJson (request : HttpRequest) : Option RequestBodyJson :=
  if preReadTextTruthy (computePreReadText request) then request.bodyJson else none

/-- Model-name extraction of the pool branch: `body.model` when the parsed
body carries a string model, else the `/v1beta/models/{id}[:action]` path
segment for native requests. -/
def extractModelName (targetPath : String) (pathType : PathType)
    (preParsedJson : Option RequestBodyJson) : Option String :=
  let fromPath : Option String :=
    if pathType = .native then
      if jsStartsWith targetPath "/v1beta/models/" then
        let modelIdentifier := jsDropChars targetPath 15
        let modelPart := jsFirstSegment modelIdentifier ':'
        if modelPart ≠ "" then some modelPart else none
      else none
    else none
  match preParsedJson with
  | some b =>
    match b.model with
    | some m => some m
    | none => fromPath
  | none => fromPath

/-- The `executeApiCall` closure for a given request. -/
def requestExecCall (request : HttpRequest) (oracle : String → CallOutcome) :
    String → ExecOutcome :=
  executeApiCall (classifyRequestPath (stripForwardPath request.pathname))
    (stripForwardPath request.pathname)
    (computePreParsedJson request) (computePreReadText request) oracle

/-- An early (pre-dispatch) response with an empty trace. -/
def earlyResult (status : Nat) (body : String) : RunResult :=
  { response := ensureCorsHeaders { status := status, body := body } }

/-- Translation of `handleForwardedRequest` from
src/src/forwarder/handler.ts: authentication guard, path guard and
classification, body pre-processing, then the pool-mode pipeline for a
valid trigger key and the passthrough call otherwise. The body-read
failure path (a transport error while reading the request body) is not
modelled. -/
def handleForwardedRequest (kv : KvState) (request : HttpRequest)
    (oracle : String → CallOutcome) (fuel : Nat) : RunResult :=
  match getTriggerKeyFromRequest request with
  | none =>
    earlyResult 401 "API key or trigger key not provided in Authorization or x-goog-api-key header."
  | some userProvidedKey =>
    if userProvidedKey = "" then
      earlyResult 401 "API key or trigger key not provided in Authorization or x-goog-api-key header."
    else if stripForwardPath request.pathname = "" ∨ stripForwardPath request.pathname = "/" then
      earlyResult 400 "Invalid forward path."
    else if classifyRequestPath (stripForwardPath request.pathname) = .unknown then
      earlyResult 404 "Unsupported API path."
    else if isValidTriggerKey kv userProvidedKey then
      poolModeRun kv (requestExecCall request oracle)
        (extractModelName (stripForwardPath request.pathname)
          (classifyRequestPath (stripForwardPath request.pathname))
          (computePreParsedJson request))
        fuel
    else
      passthroughRun (requestExecCall request oracle) userProvidedKey

/-- Fixture: a candidate with the given text and finish reason. -/
def mkTextCandidate (t : String) (fr : Option String) : GeminiCandidate :=
  { content := some { parts := some [ { text := some t } ] }, finishReason := fr }

/-- Fixture: first native chunk of the C1 failing stream, carrying text and
usage metadata but no finish reason. -/
def chunkC1a : GenerateContentResponse :=
  { candidates := [mkTextCandidate "he" none],
    usageMetadata := some { promptTokenCount := some 3, responseTokenCount := some 2, totalTokenCount := some 5 } }

/-- Fixture: second native chunk of the C1 failing stream, carrying the
terminal finish reason but no usage metadata. -/
def chunkC1b : GenerateContentResponse :=
  { candidates := [mkTextCandidate "llo" (some "STOP")] }

/-- Fixture: transformer parameters as built by the alt-chat streaming
path (include_usage forced on). -/
def paramsC1 : TransformerParams := chatStreamTransformerParams "id0" "m" {}

/-- Fixture: expected prelude frame of the C1 stream. -/
def evC1Prelude : SseEvent := SseEvent.data
  { id := "id0", model := "m",
    choices := [ { index := 0, delta := { role := some "assistant" }, finish_reason := none } ] }

/-- Fixture: expected first delta frame of the C1 stream. -/
def evC1He : SseEvent := SseEvent.data
  { id := "id0", model := "m",
    choices := [ { index := 0, delta := { role := some "assistant", content := some "he" }, finish_reason := none } ] }

/-- Fixture: expected final delta frame of the C1 stream; note that it
carries no usage either, because the chunk with the finish reason carried
no usageMetadata. -/
def evC1Llo : SseEvent := SseEvent.data
  { id := "id0", model := "m",
    choices := [ { index := 0, delta := { role := some "assistant", content := some "llo" }, finish_reason := some "stop" } ] }

/-- Whether an emitted frame is free of usage data and of empty choice
lists (the shape the held-usage flush chunk would have). -/
def eventHasNoUsagePayload : SseEvent → Bool
  | .data c => c.usage.isNone ∧ c.choices.isEmpty = false
  | .done => true

/-- Fixture: store snapshot with RetryBudget 1, one pool key, a trigger
key and a fallback key configured for model m1. -/
def kvC2 : KvState :=
  { apiKeys := [("A", "ka")], pollIndex := 0, triggerKey := some "T",
    fallbackKey := some "kf", fallbackModels := ["m1"], failureThreshold := 1 }

/-- Fixture: alt-chat request for model m1 presenting the stored trigger
key. -/
def reqC2 : HttpRequest :=
  { method := "POST", pathname := "/api/v1/chat/completions",
    authorizationHeader := some "Bearer T",
    bodyText := some "rawbody", bodyJson := some { model := some "m1" } }

/-- Fixture: upstream failing with 500 for every credential. -/
def oracleC2 : String → CallOutcome := fun _ => .resp { status := 500, body := "err" }

/-- Fixture: store snapshot with two pool keys, RetryBudget 2 and a
stored trigger key. -/
def kvC5 : KvState :=
  { apiKeys := [("A", "ka"), ("B", "kb")], pollIndex := 0, triggerKey := some "T",
    failureThreshold := 2 }

/-- Fixture: alt-chat request (presenting the stored trigger key) whose
body text does not parse as JSON. -/
def reqC5 : HttpRequest :=
  { method := "POST", pathname := "/v1/chat/completions",
    authorizationHeader := some "Bearer T",
    bodyText := some "notjson", bodyJson := none }

/-- Fixture: upstream that would succeed if it were ever reached. -/
def oracleC5 : String → CallOutcome := fun _ => .resp { status := 200 }

/-- Fixture: request presenting a non-trigger credential (passthrough). -/
def reqC3 : HttpRequest :=
  { method := "POST", pathname := "/api/v1beta/models/gemini-x:generateContent",
    authorizationHeader := some "Bearer sk-user-direct",
    bodyText := some "rawbody", bodyJson := some {} }

/-- Fixture: store snapshot with the trigger key T for the passthrough
witness. -/
def kvC3 : KvState := { triggerKey := some "T", apiKeys := [("A", "ka")] }

/-- Fixture: upstream echoing the credential with status 418. -/
def oracleC3 : String → CallOutcome := fun k => .resp { status := 418, body := k }

/-- Fixture: store snapshot with the trigger key T, a fallback key kf
configured for model gemini-pro-preview, two pool keys and RetryBudget 2
— the exact configuration under which the spec routes the request through
the fallback key first. -/
def kvC4 : KvState :=
  { apiKeys := [("A", "ka"), ("B", "kb")], pollIndex := 0, triggerKey := some "T",
    fallbackKey := some "kf", fallbackModels := ["gemini-pro-preview"], failureThreshold := 2 }

/-- Fixture: alt-chat request for the fallback model presenting the
stored trigger key. -/
def reqC4 : HttpRequest :=
  { method := "POST", pathname := "/api/v1/chat/completions",
    authorizationHeader := some "Bearer T",
    bodyText := some "rawbody", bodyJson := some { model := some "gemini-pro-preview" } }

/-- Fixture: upstream succeeding only for the fallback key — any run that
ever attempted kf would show a 200 in its trace. -/
def oracleC4 : String → CallOutcome := fun k =>
  if k = "kf" then .resp { status := 200, body := "ok" } else .resp { status := 500, body := "err" }

/-- Fixture: a candidate whose single part carries a functionCall and that
has no finish reason. -/
def fcCandidate : GeminiCandidate :=
  { content := some { parts := some [ { functionCall := some { name := "f", args := .val "a1" } } ] } }

/-- Fixture: a native request body that tries to smuggle permissive safety
settings through both config objects. -/
def adversarialNativeBody : NativeRequestBody :=
  { config := some { safetySettings := some [ { category := "HARM_CATEGORY_HATE_SPEECH", threshold := "BLOCK_NONE" } ] },
    generationConfig := some { safetySettings := some [] } }

/-- Fixture: store snapshot with three pool keys for the rotation
witness; the stored cursor 7 is out of range and normalizes to 0. -/
def kvC8 : KvState := { apiKeys := [("A", "x"), ("B", "y"), ("C", "z")], pollIndex := 7 }

/-- Fixture: a well-formed and an ill-formed tool call. -/
def goodToolCall : OpenAIToolCallIn :=
  { type := "function", function := some { name := "f", arguments := .parsed (.val "a1") } }

/-- Fixture: a tool call whose arguments do not parse. -/
def badToolCall : OpenAIToolCallIn :=
  { type := "function", function := some { name := "g", arguments := .unparseable } }

/-- Fixture: image oracle that never succeeds (irrelevant to the witness
messages, which carry no image parts). -/
def noImage : String → Option GeminiPart := fun _ => none

/-- C7: for every alt-chat request and for every native request body, the
effective native config contains the fixed all-categories-OFF safety
settings, regardless of any caller-supplied safety settings. -/
theorem safety_settings_always_forced_off :
    (∀ req : OpenAIChatCompletionRequest,
      (transformOpenAIConfigToSdkConfigOptions req).safetySettings = some defaultSafetySettings) ∧
    (∀ body : NativeRequestBody,
      (buildSdkConfigOptions body).safetySettings = some defaultSafetySettings) :=
  ⟨fun _ => rfl, fun _ => rfl⟩

/-- Witness for C7: a body smuggling permissive safety settings through
both config objects still yields the forced OFF policy, as does the empty
alt request. -/
theorem safety_settings_always_forced_off_witness :
    (buildSdkConfigOptions adversarialNativeBody).safetySettings = some defaultSafetySettings ∧
    (transformOpenAIConfigToSdkConfigOptions {}).safetySettings = some defaultSafetySettings :=
  ⟨safety_settings_always_forced_off.2 adversarialNativeBody,
   safety_settings_always_forced_off.1 {}⟩

/-- C1: on an alt-chat stream (include_usage forced on) whose usage
metadata arrives on a chunk without the terminal finish reason, the
transformer emits no trailing usage frame at all: the run produces exactly
the prelude, the two delta frames and DONE, and no emitted frame carries
usage or an empty choices list. The held-usage flush chunk is unreachable
because `finalUsageData` starts null and the store is guarded by
`finalUsageData !== null`. -/
theorem stream_usage_frame_never_emitted :
    runStreamTransformer paramsC1 [chunkC1a, chunkC1b] =
      [evC1Prelude, evC1He, evC1Llo, SseEvent.done] ∧
    (runStreamTransformer paramsC1 [chunkC1a, chunkC1b]).all eventHasNoUsagePayload = true := by
  decide

/-- C6 counterexample: a candidate part carries a functionCall, yet with an
absent raw finish reason the translation returns null, not "tool_calls". -/
theorem finish_reason_functioncall_null_counterexample :
    candidateHasFunctionCall (some fcCandidate) = true ∧
    geminiFinishReasonToOpenAI none (some fcCandidate) = none := by
  decide

/-- C6 amended: for a present, non-empty raw reason the translation maps
the enumerated reasons as specified and returns "tool_calls" whenever a
part carries a functionCall; an absent or empty raw reason yields null
regardless of the parts. -/
theorem finish_reason_mapping_amended (cand : GeminiCandidate) :
    (∀ r : String, r ≠ "" → candidateHasFunctionCall (some cand) = true →
      geminiFinishReasonToOpenAI (some r) (some cand) = some "tool_calls") ∧
    (candidateHasFunctionCall (some cand) = false →
      geminiFinishReasonToOpenAI (some "STOP") (some cand) = some "stop" ∧
      geminiFinishReasonToOpenAI (some "OTHER") (some cand) = some "stop" ∧
      geminiFinishReasonToOpenAI (some "UNKNOWN") (some cand) = some "stop" ∧
      geminiFinishReasonToOpenAI (some "MODEL_UNSPECIFIED_FINISH_REASON") (some cand) = some "stop" ∧
      geminiFinishReasonToOpenAI (some "FINISH_REASON_UNSPECIFIED") (some cand) = some "stop" ∧
      geminiFinishReasonToOpenAI (some "MAX_TOKENS") (some cand) = some "length" ∧
      geminiFinishReasonToOpenAI (some "SAFETY") (some cand) = some "content_filter" ∧
      geminiFinishReasonToOpenAI (some "RECITATION") (some cand) = some "content_filter" ∧
      geminiFinishReasonToOpenAI (some "FUNCTION_CALL") (some cand) = some "tool_calls") := by
  constructor
  · intro r hr hfc
    simp only [geminiFinishReasonToOpenAI, hfc]
    rw [if_neg hr]
    simp
  · intro hfc
    refine ⟨?_, ?_, ?_, ?_, ?_, ?_, ?_, ?_, ?_⟩ <;>
      · simp only [geminiFinishReasonToOpenAI, hfc]
        decide

/-- Witness for C6 amended: the functionCall override and one enumerated
mapping at concrete inputs. -/
theorem finish_reason_mapping_amended_witness :
    geminiFinishReasonToOpenAI (some "SAFETY") (some fcCandidate) = some "tool_calls" ∧
    geminiFinishReasonToOpenAI (some "MAX_TOKENS") (some (mkTextCandidate "t" (some "MAX_TOKENS"))) = some "length" := by
  refine ⟨(finish_reason_mapping_amended fcCandidate).1 "SAFETY" (by decide) (by decide), ?_⟩
  exact ((finish_reason_mapping_amended (mkTextCandidate "t" (some "MAX_TOKENS"))).2 (by decide)).2.2.2.2.2.1

/-- Lemma: a normalized cursor always indexes inside a non-empty pool. -/
theorem normalizeIdx_lt (cursor : Int) (len : Nat) (h : 0 < len) :
    normalizeIdx cursor len < len := by
  unfold normalizeIdx
  split
  · exact h
  · rename_i hcond
    push_neg at hcond
    omega

/-- Lemma: every branch of the compare-and-set loop returns the entry at
an in-bounds index of the pool. -/
theorem casGo_getElem (apiKeyValues : List String) (reads : Nat → Option Int)
    (fallbackRead : Option Int) (succ : Nat → Bool) (h : 0 < apiKeyValues.length) :
    ∀ remaining attempt, ∃ i, i < apiKeyValues.length ∧
      casGo apiKeyValues reads fallbackRead succ remaining attempt = apiKeyValues[i]?
  | 0, _ => ⟨_, normalizeIdx_lt _ _ h, rfl⟩
  | remaining + 1, attempt => by
    by_cases hs : succ attempt
    · exact ⟨normalizeIdx ((reads attempt).getD 0) apiKeyValues.length,
        normalizeIdx_lt _ _ h, by simp [casGo, hs]⟩
    · obtain ⟨i, hi, he⟩ :=
        casGo_getElem apiKeyValues reads fallbackRead succ h remaining (attempt + 1)
      exact ⟨i, hi, by simp [casGo, hs, he]⟩

/-- C9: `getNextAvailableApiKey` returns null exactly for an empty pool
snapshot; for a non-empty pool it returns one of the pool values under
every interference pattern (both the compare-and-set and the non-atomic
fallback path), with out-of-range cursors normalized before indexing. -/
theorem getNextAvailableApiKey_pool_membership (values : List String)
    (reads : Nat → Option Int) (fallbackRead : Option Int) (succ : Nat → Bool) :
    (getNextAvailableApiKeyModel values reads fallbackRead succ = none ↔ values = []) ∧
    (∀ k, getNextAvailableApiKeyModel values reads fallbackRead succ = some k → k ∈ values) := by
  by_cases hv : values.length = 0
  · have hnil : values = [] := List.length_eq_zero.mp hv
    subst hnil
    simp [getNextAvailableApiKeyModel]
  · have hpos : 0 < values.length := Nat.pos_of_ne_zero hv
    obtain ⟨i, hi, he⟩ := casGo_getElem values reads fallbackRead succ hpos 5 1
    unfold getNextAvailableApiKeyModel
    rw [if_neg hv, he, List.getElem?_eq_getElem hi]
    constructor
    · constructor
      · intro hcontr
        exact absurd hcontr (by simp)
      · intro hnil
        exact absurd (congrArg List.length hnil) (by simpa using hv)
    · intro k hk
      obtain rfl : values[i] = k := by simpa using hk
      exact List.getElem_mem hi

/-- Witness for C9: with every commit failing, the fallback read path
returns the first pool entry, a member of the pool. -/
theorem getNextAvailableApiKey_pool_membership_witness :
    getNextAvailableApiKeyModel ["a", "b"] (fun _ => some 7) none (fun _ => false) = some "a" ∧
    ("a" : String) ∈ ["a", "b"] :=
  ⟨by decide,
   (getNextAvailableApiKey_pool_membership ["a", "b"] (fun _ => some 7) none (fun _ => false)).2
     "a" (by decide)⟩

/-- C10: for an assistant message, tool calls whose arguments fail to
parse are silently omitted (the parts are the filterMap of the parseable
calls); an assistant message with no content whose tool calls all fail to
parse contributes no Content at all; and an assistant message with neither
content nor tool_calls contributes one Content with a single empty-text
part. -/
theorem assistant_tool_call_translation (fetchImage : String → Option GeminiPart)
    (tcs : List OpenAIToolCallIn) (s : String) :
    (transformOpenAIMessagesToGeminiContents fetchImage
        [{ role := "assistant", content := .str s, tool_calls := some tcs }]).contents =
      [{ role := "model", parts := { text := some s } :: tcs.filterMap toolCallToPart }] ∧
    (transformOpenAIMessagesToGeminiContents fetchImage
        [{ role := "assistant", content := .absent, tool_calls := some tcs }]).contents =
      (if (tcs.filterMap toolCallToPart).isEmpty then []
       else [{ role := "model", parts := tcs.filterMap toolCallToPart }]) ∧
    (transformOpenAIMessagesToGeminiContents fetchImage
        [{ role := "assistant", content := .absent, tool_calls := none }]).contents =
      [{ role := "model", parts := [{ text := some "" }] }] := by
  refine ⟨?_, ?_, ?_⟩
  · simp [transformOpenAIMessagesToGeminiContents, messageParts, buildContentParts, geminiRoleFor]
  · by_cases he : (tcs.filterMap toolCallToPart).isEmpty
    · rw [if_pos he]
      rw [List.isEmpty_iff] at he
      simp [transformOpenAIMessagesToGeminiContents, messageParts, buildContentParts,
        oaiMsgContentTruthy, he]
    · rw [if_neg he]
      rw [List.isEmpty_iff] at he
      have hlen : 0 < (tcs.filterMap toolCallToPart).length := List.length_pos.mpr he
      simp [transformOpenAIMessagesToGeminiContents, messageParts, buildContentParts,
        geminiRoleFor, hlen]
  · simp [transformOpenAIMessagesToGeminiContents, messageParts, buildContentParts,
      oaiMsgContentTruthy]

/-- Witness for C10: one parseable and one unparseable call keep only the
parseable part; a single unparseable call yields no Content; the empty
assistant message yields the empty-text Content. -/
theorem assistant_tool_call_translation_witness :
    (transformOpenAIMessagesToGeminiContents noImage
        [{ role := "assistant", content := .absent, tool_calls := some [goodToolCall, badToolCall] }]).contents =
      [{ role := "model", parts := [{ functionCall := some { name := "f", args := .val "a1" } }] }] ∧
    (transformOpenAIMessagesToGeminiContents noImage
        [{ role := "assistant", content := .absent, tool_calls := some [badToolCall] }]).contents = [] ∧
    (transformOpenAIMessagesToGeminiContents noImage
        [{ role := "assistant", content := .absent, tool_calls := none }]).contents =
      [{ role := "model", parts := [{ text := some "" }] }] := by
  refine ⟨?_, ?_, ?_⟩
  · rw [(assistant_tool_call_translation noImage [goodToolCall, badToolCall] "").2.1]
    decide
  · rw [(assistant_tool_call_translation noImage [badToolCall] "").2.1]
    decide
  · rw [(assistant_tool_call_translation noImage [] "").2.2]

/-- Lemma: a sequential allocation never changes the pool snapshot. -/
theorem getNextAvailableApiKeySeq_apiKeys (kv : KvState) :
    (getNextAvailableApiKeySeq kv).2.apiKeys = kv.apiKeys := by
  simp only [getNextAvailableApiKeySeq]
  split <;> rfl

/-- Lemma: a non-empty snapshot has positive length. -/
theorem kvApiKeyValues_length_pos (kv : KvState) (hne : kvApiKeyValues kv ≠ []) :
    0 < (kvApiKeyValues kv).length := List.length_pos.mpr hne

/-- Lemma: normalization is the identity on in-range cursors. -/
theorem normalizeIdx_coe (c len : Nat) (h : c < len) : normalizeIdx (c : Int) len = c := by
  unfold normalizeIdx
  rw [if_neg (by push_neg; omega)]
  exact Int.toNat_ofNat c

/-- Lemma: one sequential allocation on a non-empty pool returns the entry
at the normalized cursor and advances the cursor cyclically. -/
theorem getNextAvailableApiKeySeq_eq (kv : KvState) (hne : kvApiKeyValues kv ≠ []) :
    getNextAvailableApiKeySeq kv =
      ((kvApiKeyValues kv)[normalizeIdx kv.pollIndex (kvApiKeyValues kv).length]?,
       { kv with pollIndex := (((normalizeIdx kv.pollIndex (kvApiKeyValues kv).length + 1) %
           (kvApiKeyValues kv).length : Nat) : Int) }) := by
  have h0 : ¬ (kvApiKeyValues kv).length = 0 := by
    have := kvApiKeyValues_length_pos kv hne
    omega
  simp only [getNextAvailableApiKeySeq, h0, if_false]

/-- Lemma: cursor written by one sequential allocation. -/
theorem getNextAvailableApiKeySeq_pollIndex (kv : KvState) (hne : kvApiKeyValues kv ≠ []) :
    (getNextAvailableApiKeySeq kv).2.pollIndex =
      (((normalizeIdx kv.pollIndex (kvApiKeyValues kv).length + 1) %
          (kvApiKeyValues kv).length : Nat) : Int) := by
  rw [getNextAvailableApiKeySeq_eq kv hne]

/-- Lemma: key returned by one sequential allocation. -/
theorem getNextAvailableApiKeySeq_fst (kv : KvState) (hne : kvApiKeyValues kv ≠ []) :
    (getNextAvailableApiKeySeq kv).1 =
      (kvApiKeyValues kv)[normalizeIdx kv.pollIndex (kvApiKeyValues kv).length]? := by
  rw [getNextAvailableApiKeySeq_eq kv hne]

/-- Lemma: pool snapshot and cursor trajectory across sequential
allocations: after `n + 1` allocations the snapshot is unchanged and the
cursor sits at the normalized start index plus `n + 1`, modulo the pool
size. -/
theorem allocIterate_spec (kv : KvState) (hne : kvApiKeyValues kv ≠ []) :
    ∀ n, (allocIterate kv (n + 1)).apiKeys = kv.apiKeys ∧
      (allocIterate kv (n + 1)).pollIndex =
        (((normalizeIdx kv.pollIndex (kvApiKeyValues kv).length + (n + 1)) %
            (kvApiKeyValues kv).length : Nat) : Int) := by
  have hP := kvApiKeyValues_length_pos kv hne
  intro n
  induction n with
  | zero =>
    refine ⟨getNextAvailableApiKeySeq_apiKeys kv, ?_⟩
    show (getNextAvailableApiKeySeq kv).2.pollIndex = _
    rw [getNextAvailableApiKeySeq_pollIndex kv hne]
  | succ m ih =>
    obtain ⟨ihA, ihP⟩ := ih
    have hvals : kvApiKeyValues (allocIterate kv (m + 1)) = kvApiKeyValues kv := by
      unfold kvApiKeyValues
      rw [ihA]
    have hne' : kvApiKeyValues (allocIterate kv (m + 1)) ≠ [] := by
      rw [hvals]
      exact hne
    have hidx : normalizeIdx (allocIterate kv (m + 1)).pollIndex
        (kvApiKeyValues (allocIterate kv (m + 1))).length =
        (normalizeIdx kv.pollIndex (kvApiKeyValues kv).length + (m + 1)) %
          (kvApiKeyValues kv).length := by
      rw [hvals, ihP]
      exact normalizeIdx_coe _ _ (Nat.mod_lt _ hP)
    constructor
    · show (getNextAvailableApiKeySeq (allocIterate kv (m + 1))).2.apiKeys = kv.apiKeys
      rw [getNextAvailableApiKeySeq_apiKeys, ihA]
    · show (getNextAvailableApiKeySeq (allocIterate kv (m + 1))).2.pollIndex = _
      rw [getNextAvailableApiKeySeq_pollIndex _ hne', hidx, hvals]
      norm_cast
      rw [Nat.mod_add_mod]
      rfl

/-- Lemma: the key selected by the `k`-th sequential allocation is the
pool entry at the normalized start index plus `k`, modulo the pool size. -/
theorem allocSelection_spec (kv : KvState) (hne : kvApiKeyValues kv ≠ []) (k : Nat) :
    allocSelection kv k =
      (kvApiKeyValues kv)[(normalizeIdx kv.pollIndex (kvApiKeyValues kv).length + k) %
        (kvApiKeyValues kv).length]? := by
  have hP := kvApiKeyValues_length_pos kv hne
  cases k with
  | zero =>
    show (getNextAvailableApiKeySeq kv).1 = _
    rw [getNextAvailableApiKeySeq_fst kv hne]
    congr 1
    rw [Nat.add_zero, Nat.mod_eq_of_lt (normalizeIdx_lt _ _ hP)]
  | succ m =>
    obtain ⟨ihA, ihP⟩ := allocIterate_spec kv hne m
    have hvals : kvApiKeyValues (allocIterate kv (m + 1)) = kvApiKeyValues kv := by
      unfold kvApiKeyValues
      rw [ihA]
    have hne' : kvApiKeyValues (allocIterate kv (m + 1)) ≠ [] := by
      rw [hvals]
      exact hne
    have hidx : normalizeIdx (allocIterate kv (m + 1)).pollIndex
        (kvApiKeyValues (allocIterate kv (m + 1))).length =
        (normalizeIdx kv.pollIndex (kvApiKeyValues kv).length + (m + 1)) %
          (kvApiKeyValues kv).length := by
      rw [hvals, ihP]
      exact normalizeIdx_coe _ _ (Nat.mod_lt _ hP)
    show (getNextAvailableApiKeySeq (allocIterate kv (m + 1))).1 = _
    rw [getNextAvailableApiKeySeq_fst _ hne', hidx, hvals]

/-- Lemma: among `0, …, K-1`, the residue class `r` modulo `P` occurs
`K / P` times, plus one more when `r < K % P`. -/
theorem length_filter_range_mod (P r : Nat) (hP : 0 < P) (hr : r < P) :
    ∀ K, ((List.range K).filter (fun k => decide (k % P = r))).length =
      K / P + (if r < K % P then 1 else 0)
  | 0 => by simp
  | K + 1 => by
    have ih := length_filter_range_mod P r hP hr K
    have hdm := Nat.div_add_mod K P
    have hmlt : K % P < P := Nat.mod_lt K hP
    have hsingle : (List.filter (fun k => decide (k % P = r)) [K]).length =
        if K % P = r then 1 else 0 := by
      by_cases hKr : K % P = r <;> simp [hKr]
    rw [List.range_succ, List.filter_append, List.length_append, ih, hsingle]
    by_cases hPm : K % P + 1 = P
    · have hK1 : K + 1 = P * (K / P + 1) := by
        rw [Nat.mul_add, Nat.mul_one]
        omega
      have h1 : (K + 1) % P = 0 := by
        rw [hK1]
        exact Nat.mul_mod_right _ _
      have h2 : (K + 1) / P = K / P + 1 := by
        rw [hK1]
        exact Nat.mul_div_cancel_left _ hP
      rw [h1, h2]
      split_ifs <;> omega
    · have hm1 : K % P + 1 < P := by omega
      have hpair : (K + 1) / P = K / P ∧ (K + 1) % P = K % P + 1 :=
        (Nat.div_mod_unique hP).mpr ⟨by omega, hm1⟩
      rw [hpair.2, hpair.1]
      split_ifs <;> omega

/-- Lemma: for in-range `a` and `i`, the congruence `(a + k) % P = i`
holds exactly when `k % P` is the fixed residue `(i + P - a) % P`. -/
theorem add_mod_eq_iff (P a i k : Nat) (hP : 0 < P) (ha : a < P) (hi : i < P) :
    ((a + k) % P = i) ↔ (k % P = (i + P - a) % P) := by
  have hmod : (a + k) % P = (a + k % P) % P := by
    conv_lhs => rw [Nat.add_mod]
    rw [Nat.mod_eq_of_lt ha]
  have ht : k % P < P := Nat.mod_lt _ hP
  have hshape : (a + k % P) % P =
      if a + k % P < P then a + k % P else a + k % P - P := by
    by_cases hlt : a + k % P < P
    · rw [if_pos hlt, Nat.mod_eq_of_lt hlt]
    · rw [if_neg hlt, Nat.mod_eq_sub_mod (by omega), Nat.mod_eq_of_lt (by omega)]
  have hrshape : (i + P - a) % P = if a ≤ i then i - a else i + P - a := by
    by_cases hai : a ≤ i
    · rw [if_pos hai]
      have hx : i + P - a = (i - a) + P := by omega
      rw [hx, Nat.add_mod_right, Nat.mod_eq_of_lt (by omega)]
    · rw [if_neg hai, Nat.mod_eq_of_lt (by omega)]
  rw [hmod, hshape, hrshape]
  split_ifs <;> omega

/-- Lemma: the ceiling division `(K + P - 1) / P` is the floor division
plus one exactly when `P` does not divide `K`. -/
theorem ceil_div_cases (P K : Nat) (hP : 0 < P) :
    (K + P - 1) / P = K / P + (if K % P = 0 then 0 else 1) := by
  have hdm := Nat.div_add_mod K P
  have hmlt : K % P < P := Nat.mod_lt K hP
  by_cases hm : K % P = 0
  · rw [if_pos hm]
    have h1 : K + P - 1 = P * (K / P) + (P - 1) := by omega
    rw [h1, Nat.mul_add_div hP, Nat.div_eq_of_lt (show P - 1 < P by omega)]
  · rw [if_neg hm]
    have h1 : K + P - 1 = P * (K / P + 1) + (K % P - 1) := by
      rw [Nat.mul_add, Nat.mul_one]
      omega
    rw [h1, Nat.mul_add_div hP, Nat.div_eq_of_lt (show K % P - 1 < P by omega)]

/-- C8: across `K` sequential single-threaded successful allocations from
an unchanged pool of size `P`, the cursor advances monotonically modulo
`P` (after allocation `k` it sits at the normalized start plus `k`), the
`k`-th selection is the entry at the normalized start plus `k` modulo `P`,
and each credential of a duplicate-free pool is selected exactly
`⌊K / P⌋` or `⌈K / P⌉` times. -/
theorem rotation_round_robin (kv : KvState) (K : Nat) (hne : kvApiKeyValues kv ≠ []) :
    (∀ k, 1 ≤ k → k ≤ K → (allocIterate kv k).pollIndex =
        (((normalizeIdx kv.pollIndex (kvApiKeyValues kv).length + k) %
            (kvApiKeyValues kv).length : Nat) : Int)) ∧
    (∀ k, k < K → allocSelection kv k =
        (kvApiKeyValues kv)[(normalizeIdx kv.pollIndex (kvApiKeyValues kv).length + k) %
          (kvApiKeyValues kv).length]?) ∧
    ((kvApiKeyValues kv).Nodup → ∀ i, (hi : i < (kvApiKeyValues kv).length) →
      (allocSelections kv K).count (some ((kvApiKeyValues kv).get ⟨i, hi⟩)) =
          K / (kvApiKeyValues kv).length ∨
        (allocSelections kv K).count (some ((kvApiKeyValues kv).get ⟨i, hi⟩)) =
          (K + (kvApiKeyValues kv).length - 1) / (kvApiKeyValues kv).length) := by
  have hP := kvApiKeyValues_length_pos kv hne
  set P := (kvApiKeyValues kv).length with hPdef
  set a := normalizeIdx kv.pollIndex P with hadef
  have ha : a < P := normalizeIdx_lt _ _ hP
  refine ⟨?_, ?_, ?_⟩
  · intro k h1 h2
    obtain ⟨m, rfl⟩ : ∃ m, k = m + 1 := ⟨k - 1, by omega⟩
    exact (allocIterate_spec kv hne m).2
  · intro k _
    exact allocSelection_spec kv hne k
  · intro hnd i hi
    set r := (i + P - a) % P with hrdef
    have hrP : r < P := Nat.mod_lt _ hP
    have hsel : allocSelections kv K =
        (List.range K).map (fun k => (kvApiKeyValues kv)[(a + k) % P]?) := by
      unfold allocSelections
      exact List.map_congr_left (fun k _ => allocSelection_spec kv hne k)
    have hcount : (allocSelections kv K).count (some ((kvApiKeyValues kv).get ⟨i, hi⟩)) =
        ((List.range K).filter (fun k => decide (k % P = r))).length := by
      rw [hsel, List.count, List.countP_map, List.countP_eq_length_filter]
      congr 1
      apply List.filter_congr
      intro k _
      simp only [Function.comp_apply]
      have hj : (a + k) % P < P := Nat.mod_lt _ hP
      rw [List.getElem?_eq_getElem hj]
      have hiff : ((kvApiKeyValues kv).get ⟨(a + k) % P, hj⟩ = (kvApiKeyValues kv).get ⟨i, hi⟩)
          ↔ (k % P = r) := by
        rw [hnd.get_inj_iff]
        constructor
        · intro hfe
          exact (add_mod_eq_iff P a i k hP ha hi).mp (congrArg Fin.val hfe)
        · intro hkr
          exact Fin.ext ((add_mod_eq_iff P a i k hP ha hi).mpr hkr)
      rw [Bool.eq_iff_iff]
      simp only [beq_iff_eq, decide_eq_true_eq, Option.some_inj]
      exact hiff
    rw [hcount, length_filter_range_mod P r hP hrP K]
    by_cases hrK : r < K % P
    · right
      rw [if_pos hrK]
      have hKm : ¬ K % P = 0 := by omega
      rw [ceil_div_cases P K hP, if_neg hKm]
    · left
      rw [if_neg hrK, Nat.add_zero]

/-- Witness for C8: pool of three distinct keys, out-of-range stored
cursor 7 (normalized to 0), four allocations: the first key is selected
either one or two times (in fact two). -/
theorem rotation_round_robin_witness :
    (allocSelections kvC8 4).count (some "x") = 4 / 3 ∨
    (allocSelections kvC8 4).count (some "x") = (4 + 3 - 1) / 3 := by
  have h := (rotation_round_robin kvC8 4 (by decide)).2.2 (by decide) 0 (by decide)
  exact h

/-- Lemma: a path classified as openai ends in one of the three openai
suffixes. -/
theorem classify_openai_ends (tp : String) (h : classifyRequestPath tp = .openai) :
    jsEndsWith tp "/chat/completions" = true ∨ jsEndsWith tp "/embeddings" = true ∨
      jsEndsWith tp "/models" = true := by
  unfold classifyRequestPath at h
  split_ifs at h with h1 h2 h3 <;> first | exact h3 | cases h

/-- Lemma: a path classified as openai_image ends in the image suffix. -/
theorem classify_image_ends (tp : String) (h : classifyRequestPath tp = .openai_image) :
    jsEndsWith tp "/images/generations" = true := by
  unfold classifyRequestPath at h
  split_ifs at h with h1 h2 h3 <;> first | exact h2 | cases h

/-- Lemma: for a routable request whose body dispatches (native, or a
parsed JSON body), `executeApiCall` invokes the upstream stack with the
chosen credential and returns its outcome. -/
theorem executeApiCall_dispatches (tp : String) (pj : Option RequestBodyJson)
    (text : Option String) (oracle : String → CallOutcome) (k : String)
    (hcl : classifyRequestPath tp ≠ .unknown)
    (hd : classifyRequestPath tp = .native ∨ pj.isSome) :
    executeApiCall (classifyRequestPath tp) tp pj text oracle k =
      { outcome := oracle k, upstreamUsed := true } := by
  cases hpt : classifyRequestPath tp with
  | native => rfl
  | unknown => exact absurd hpt hcl
  | openai =>
    have hpj : pj.isSome := by
      rcases hd with h | h
      · rw [hpt] at h
        cases h
      · exact h
    obtain ⟨b, rfl⟩ := Option.isSome_iff_exists.mp hpj
    by_cases hc : jsEndsWith tp "/chat/completions" = true
    · simp [executeApiCall, hc]
    · by_cases he : jsEndsWith tp "/embeddings" = true
      · simp [executeApiCall, hc, he]
      · have hm : jsEndsWith tp "/models" = true := by
          rcases classify_openai_ends tp hpt with h | h | h
          · exact absurd h hc
          · exact absurd h he
          · exact h
        simp [executeApiCall, hc, he, hm]
  | openai_image =>
    have hpj : pj.isSome := by
      rcases hd with h | h
      · rw [hpt] at h
        cases h
      · exact h
    obtain ⟨b, rfl⟩ := Option.isSome_iff_exists.mp hpj
    simp [executeApiCall, classify_image_ends tp hpt]

/-- Lemma: CORS header injection does not change the status. -/
theorem ensureCorsHeaders_status (r : HResponse) :
    (ensureCorsHeaders r).status = r.status := rfl

/-- Lemma: a malformed body on an openai-classified path produces the
local 400 without touching the upstream. -/
theorem executeApiCall_malformed_openai (tp : String) (text : Option String)
    (oracle : String → CallOutcome) (k : String)
    (hpt : classifyRequestPath tp = .openai)
    (ht : preReadTextTruthy text = true) :
    executeApiCall (classifyRequestPath tp) tp none text oracle k =
      { outcome := .resp { status := 400, body := "OpenAI compatible requests require a JSON body." },
        upstreamUsed := false } := by
  rw [hpt]
  simp [executeApiCall, ht]

/-- Lemma: a malformed body on an image-classified path produces the
local 400 without touching the upstream. -/
theorem executeApiCall_malformed_image (tp : String) (text : Option String)
    (oracle : String → CallOutcome) (k : String)
    (hpt : classifyRequestPath tp = .openai_image)
    (ht : preReadTextTruthy text = true) :
    executeApiCall (classifyRequestPath tp) tp none text oracle k =
      { outcome := .resp { status := 400, body := "OpenAI compatible image requests require a JSON body." },
        upstreamUsed := false } := by
  rw [hpt]
  simp [executeApiCall, ht]

/-- C3: a routable request whose presented credential is not the trigger
key is executed exactly once with that credential — one attempt, one
upstream invocation, no pool lookup — and an upstream response (2xx or
not) is returned to the caller with CORS headers applied. -/
theorem passthrough_single_attempt (kv : KvState) (request : HttpRequest)
    (oracle : String → CallOutcome) (fuel : Nat) (p : String)
    (h1 : getTriggerKeyFromRequest request = some p)
    (h2 : ¬ p = "")
    (h3 : ¬ (stripForwardPath request.pathname = "" ∨ stripForwardPath request.pathname = "/"))
    (h4 : ¬ classifyRequestPath (stripForwardPath request.pathname) = PathType.unknown)
    (h5 : isValidTriggerKey kv p = false)
    (h6 : classifyRequestPath (stripForwardPath request.pathname) = PathType.native ∨
          (computePreParsedJson request).isSome) :
    (handleForwardedRequest kv request oracle fuel).attempts = [p] ∧
    (handleForwardedRequest kv request oracle fuel).upstreamKeys = [p] ∧
    (handleForwardedRequest kv request oracle fuel).poolAllocCount = 0 ∧
    ∀ r, oracle p = CallOutcome.resp r →
      (handleForwardedRequest kv request oracle fuel).response = ensureCorsHeaders r := by
  have hexec : requestExecCall request oracle p =
      { outcome := oracle p, upstreamUsed := true } :=
    executeApiCall_dispatches _ _ _ oracle p h4 h6
  have hrun : handleForwardedRequest kv request oracle fuel =
      passthroughRun (requestExecCall request oracle) p := by
    unfold handleForwardedRequest
    simp only [h1]
    rw [if_neg h2, if_neg h3, if_neg h4, if_neg (by simp [h5])]
  rw [hrun]
  simp only [passthroughRun, hexec]
  cases ho : oracle p with
  | resp r =>
    refine ⟨by simp [mkRunResult, recordAttempt, initialPoolState], ?_, ?_, ?_⟩
    · simp [mkRunResult, recordAttempt, initialPoolState]
    · simp [mkRunResult, recordAttempt, initialPoolState]
    · intro r2 hr2
      cases hr2
      simp [mkRunResult, recordAttempt, initialPoolState]
  | thrown msg =>
    refine ⟨by simp [mkRunResult, recordAttempt, initialPoolState], ?_, ?_, ?_⟩
    · simp [mkRunResult, recordAttempt, initialPoolState]
    · simp [mkRunResult, recordAttempt, initialPoolState]
    · intro r2 hr2
      cases hr2

/-- Witness for C3: a direct credential on a native path with a failing
(418) upstream is invoked once and its response is forwarded. -/
theorem passthrough_single_attempt_witness :
    (handleForwardedRequest kvC3 reqC3 oracleC3 10).attempts = ["sk-user-direct"] ∧
    (handleForwardedRequest kvC3 reqC3 oracleC3 10).poolAllocCount = 0 ∧
    (handleForwardedRequest kvC3 reqC3 oracleC3 10).response =
      ensureCorsHeaders { status := 418, body := "sk-user-direct" } := by
  have h := passthrough_single_attempt kvC3 reqC3 oracleC3 10 "sk-user-direct"
    (by decide) (by decide) (by decide) (by decide) (by decide) (by decide)
  exact ⟨h.1, h.2.2.1, h.2.2.2 _ rfl⟩



/-- Lemma: `isValidTriggerKey` is constantly false — `getTriggerKey` never
returns a stored key (its `cached !== undefined` guard is satisfied by the
null that `getCache` returns on the never-populated trigger-key cache
cell), so the comparison against the provided key never happens. -/
theorem isValidTriggerKey_false (kv : KvState) (p : String) :
    isValidTriggerKey kv p = false := by
  unfold isValidTriggerKey getTriggerKey
  split <;> rfl

/-- C2: every request — in particular every request of the claim's
pool-mode scope — invokes `executeApiCall` with at most one distinct
credential, hence with at most RetryBudget distinct credentials for any
positive RetryBudget, over all store snapshots, fallback configurations
and upstream outcomes. (The bound holds with room to spare: since
`isValidTriggerKey` is constantly false, the pool-mode pipeline is never
entered and each request is executed once with the presented
credential.) -/
theorem retry_budget_distinct_bound (kv : KvState) (request : HttpRequest)
    (oracle : String → CallOutcome) (fuel : Nat) :
    (handleForwardedRequest kv request oracle fuel).attempts.dedup.length ≤ 1 ∧
    (1 ≤ kv.failureThreshold →
      (handleForwardedRequest kv request oracle fuel).attempts.dedup.length ≤
        kv.failureThreshold) := by
  have hb : (handleForwardedRequest kv request oracle fuel).attempts.length ≤ 1 := by
    unfold handleForwardedRequest
    split
    · simp [earlyResult]
    · rename_i p
      split_ifs with hp hpath hcl hvalid
      · simp [earlyResult]
      · simp [earlyResult]
      · simp [earlyResult]
      · rw [isValidTriggerKey_false] at hvalid
        simp at hvalid
      · simp only [passthroughRun]
        split
        · simp [mkRunResult, recordAttempt, initialPoolState]
        · simp [mkRunResult, recordAttempt, initialPoolState]
  have hd : (handleForwardedRequest kv request oracle fuel).attempts.dedup.length ≤ 1 :=
    le_trans (List.Sublist.length_le (List.dedup_sublist _)) hb
  exact ⟨hd, fun h => le_trans hd h⟩

/-- Witness for C2: the one-pool-key store with RetryBudget 1 stays within
the budget. -/
theorem retry_budget_distinct_bound_witness :
    (handleForwardedRequest kvC2 reqC2 oracleC2 10).attempts.dedup.length ≤
      kvC2.failureThreshold :=
  (retry_budget_distinct_bound kvC2 reqC2 oracleC2 10).2 (by decide)

/-- C4 (code bug): the claimed fallback-first routing is unreachable. With
the trigger key T, the fallback key kf configured for model
gemini-pro-preview and an upstream that succeeds only for kf, the request
presenting T for that model is NOT first attempted with kf: because
`getTriggerKey` and `getFallbackApiKey` constantly return null (their
`cached !== undefined` guards over the null-returning `getCache`),
`isValidTriggerKey` is false and the request takes the passthrough branch,
so the upstream is invoked exactly once with the literal credential T, the
pool allocator is never consulted, and the run ends 500 — the fallback
key never appears in the trace. -/
theorem fallback_key_never_attempted :
    kvC4.triggerKey = some "T" ∧
    kvC4.fallbackKey = some "kf" ∧
    shouldUseFallbackKey kvC4 "gemini-pro-preview" = true ∧
    isValidTriggerKey kvC4 "T" = false ∧
    getFallbackApiKey kvC4 = none ∧
    (handleForwardedRequest kvC4 reqC4 oracleC4 10).attempts = ["T"] ∧
    (handleForwardedRequest kvC4 reqC4 oracleC4 10).upstreamKeys = ["T"] ∧
    (handleForwardedRequest kvC4 reqC4 oracleC4 10).poolAllocCount = 0 ∧
    (handleForwardedRequest kvC4 reqC4 oracleC4 10).response.status = 500 := by
  decide

/-- C5: a request on an unknown route is answered 404 before any
credential is consulted, and a request with a non-JSON body on an openai
or image route is answered with the local 400 from its single passthrough
attempt: the upstream is never invoked, the pool allocator is never
consulted, and no additional credential is tried (the attempts trace is
exactly the presented credential, once). -/
theorem client_malformed_no_retry (kv : KvState) (request : HttpRequest)
    (oracle : String → CallOutcome) (fuel : Nat) (p : String)
    (h1 : getTriggerKeyFromRequest request = some p)
    (h2 : ¬ p = "")
    (h3 : ¬ (stripForwardPath request.pathname = "" ∨ stripForwardPath request.pathname = "/")) :
    (classifyRequestPath (stripForwardPath request.pathname) = PathType.unknown →
      (handleForwardedRequest kv request oracle fuel).response.status = 404 ∧
      (handleForwardedRequest kv request oracle fuel).attempts = [] ∧
      (handleForwardedRequest kv request oracle fuel).upstreamKeys = [] ∧
      (handleForwardedRequest kv request oracle fuel).poolAllocCount = 0) ∧
    ((classifyRequestPath (stripForwardPath request.pathname) = PathType.openai ∨
        classifyRequestPath (stripForwardPath request.pathname) = PathType.openai_image) →
      computePreParsedJson request = none →
      preReadTextTruthy (computePreReadText request) = true →
      (handleForwardedRequest kv request oracle fuel).response.status = 400 ∧
      (handleForwardedRequest kv request oracle fuel).upstreamKeys = [] ∧
      (handleForwardedRequest kv request oracle fuel).poolAllocCount = 0 ∧
      (handleForwardedRequest kv request oracle fuel).attempts = [p]) := by
  constructor
  · intro hcl
    unfold handleForwardedRequest
    simp only [h1]
    rw [if_neg h2, if_neg h3, if_pos hcl]
    simp [earlyResult, ensureCorsHeaders_status]
  · intro hcl hpj htext
    have hclne : ¬ classifyRequestPath (stripForwardPath request.pathname) = PathType.unknown := by
      rcases hcl with h | h <;> simp [h]
    obtain ⟨e, hexec, hstat⟩ : ∃ e, (∀ k, requestExecCall request oracle k =
        { outcome := CallOutcome.resp e, upstreamUsed := false }) ∧ e.status = 400 := by
      rcases hcl with h | h
      · refine ⟨{ status := 400, body := "OpenAI compatible requests require a JSON body." }, ?_, rfl⟩
        intro k
        unfold requestExecCall
        rw [hpj]
        exact executeApiCall_malformed_openai _ _ oracle k h htext
      · refine ⟨{ status := 400, body := "OpenAI compatible image requests require a JSON body." }, ?_, rfl⟩
        intro k
        unfold requestExecCall
        rw [hpj]
        exact executeApiCall_malformed_image _ _ oracle k h htext
    unfold handleForwardedRequest
    simp only [h1]
    rw [if_neg h2, if_neg h3, if_neg hclne, if_neg (by simp [isValidTriggerKey_false])]
    simp only [passthroughRun, hexec]
    refine ⟨?_, ?_, ?_, ?_⟩
    · simp [mkRunResult, ensureCorsHeaders_status, hstat]
    · simp [mkRunResult, recordAttempt, initialPoolState]
    · simp [mkRunResult, recordAttempt, initialPoolState]
    · simp [mkRunResult, recordAttempt, initialPoolState]

/-- Witness for C5: the non-JSON chat-completions request is answered 400
from one local attempt with the presented credential, with no upstream
call and no pool draw. -/
theorem client_malformed_no_retry_witness :
    (handleForwardedRequest kvC5 reqC5 oracleC5 10).response.status = 400 ∧
    (handleForwardedRequest kvC5 reqC5 oracleC5 10).upstreamKeys = [] ∧
    (handleForwardedRequest kvC5 reqC5 oracleC5 10).poolAllocCount = 0 ∧
    (handleForwardedRequest kvC5 reqC5 oracleC5 10).attempts = ["T"] :=
  (client_malformed_no_retry kvC5 reqC5 oracleC5 10 "T"
    (by decide) (by decide) (by decide)).2 (by decide) (by decide) (by decide)
